import Mathlib

/-!
# Verification of the librariangame simulation core

A shallow embedding of the repository's simulation core
(`src/game/entities/Shelf.js`, `src/game/entities/Kid.js`,
`src/game/states/PlayingState.js`) in Lean 4, together with theorems
settling the frozen claims about it.

Modelling conventions:

* JavaScript numbers are modelled as rationals (`ℚ`); the source never
  relies on float rounding for the claims at hand.
* The ambient random source (`Math.random()`) and the transcendental math
  functions (`Math.sqrt`, `Math.cos`, `Math.sin`, `Math.atan2`, `Math.PI`)
  are supplied by explicit oracle records (`MathO` and per-function draw
  records).  Each `Math.random()` call site reads a dedicated named field,
  and each trig evaluation applies the corresponding oracle function.  No
  claim depends on the numeric values these oracles produce.
* The mutable object-reference graph of the source (blocks referenced both
  from shelves/kids and from the global list) is modelled with value
  semantics: a shelf slot or a kid's carried slot holds the block value,
  and functions return the updated copies.  Object identity of holders is
  modelled with the `Holder` tag carrying a kid identifier.
* `VolumeBlock.js` and `Player.js` are not part of the available sources;
  their small method sets are modelled from the specification and marked
  `Modelled from the spec:` in their doc comments.
* Presentation-only side effects (sounds, sprites, particles, console
  logging, the on-screen wave notification text) are omitted; the
  upgrade-selection interruption is counted, since a claim mentions it.
-/

namespace Game

/-- Behavior states of the Kid finite state machine
(`Kid.js`: `'wandering' | 'fleeing' | 'stealing'`). -/
inductive KidState where
  | wandering
  | fleeing
  | stealing
  deriving DecidableEq, Repr

/-- The holder reference stored on a held block.  In the source this is a
JS object reference (a `Player` or a `Kid`); the kid case carries the
model's identifier standing for the object's identity. -/
inductive Holder where
  | player
  | kid (id : ℕ)
  deriving DecidableEq, Repr

/-- A volume block (`VolumeBlock.js`, not among the available sources).
Attributes modelled from the spec §3: position, velocity, color,
location-state (Floor / Held / Shelved as the two mutually exclusive
flags used throughout the available sources), owning reference (holder or
shelf index), visibility flag. -/
structure Block where
  x : ℚ
  y : ℚ
  vx : ℚ
  vy : ℚ
  width : ℚ
  height : ℚ
  color : String
  isHeld : Bool
  isShelved : Bool
  holder : Option Holder
  shelfRef : Option ℕ
  visible : Bool
  deriving DecidableEq, Repr

/-- Center x of a block (`Entity.getCenterX`). -/
def Block.getCenterX (b : Block) : ℚ := b.x + b.width / 2

/-- Center y of a block (`Entity.getCenterY`). -/
def Block.getCenterY (b : Block) : ℚ := b.y + b.height / 2

/-- Modelled from the spec: `Block.pickup(holder)` — "transitions
Floor→Held; sets owning reference; only valid when not already Held or
Shelved" (§4.2), "no-op if already Held/Shelved" (§7). -/
def Block.pickup (b : Block) (h : Holder) : Block :=
  if b.isHeld || b.isShelved then b
  else { b with isHeld := true, holder := some h }

/-- Modelled from the spec: `Block.shelve(shelf)` — "transitions block to
Shelved with owning reference to this shelf" (§4.1, §4.2). -/
def Block.shelve (b : Block) (shelfIdx : ℕ) : Block :=
  { b with isShelved := true, shelfRef := some shelfIdx,
           isHeld := false, holder := none }

/-- Modelled from the spec: `Block.unshelve()` — "unshelve clears owning
reference and marks Floor" (§4.2). -/
def Block.unshelve (b : Block) : Block :=
  { b with isShelved := false, shelfRef := none }

/-- A shelf (`Shelf.js`).  `volumeBlocks` is the fixed-size slot array
(`new Array(capacity).fill(null)` in the constructor, hence length =
`capacity` for every shelf the program builds); an empty slot is `none`.
Width and height are the constructor constants 64 × 96. -/
structure Shelf where
  x : ℚ
  y : ℚ
  width : ℚ := 64
  height : ℚ := 96
  color : String
  capacity : ℕ := 6
  volumeBlocks : List (Option Block)
  deriving DecidableEq, Repr

/-- Center x of a shelf (`Entity.getCenterX`). -/
def Shelf.getCenterX (s : Shelf) : ℚ := s.x + s.width / 2

/-- Center y of a shelf (`Entity.getCenterY`). -/
def Shelf.getCenterY (s : Shelf) : ℚ := s.y + s.height / 2

/-- Slot access.  JS array indexing out of range yields `undefined`,
which is falsy; `getD … none` reproduces that. -/
def Shelf.slotAt (s : Shelf) (i : ℕ) : Option Block :=
  s.volumeBlocks.getD i none

/-- `Shelf.hasEmptySlots`: count non-null slots, compare with capacity. -/
def Shelf.hasEmptySlots (s : Shelf) : Bool :=
  (s.volumeBlocks.filter Option.isSome).length < s.capacity

/-- `Shelf.getEmptySlotCount`. -/
def Shelf.getEmptySlotCount (s : Shelf) : ℕ :=
  s.capacity - (s.volumeBlocks.filter Option.isSome).length

/-- The slot-search loop of `Shelf.addVolumeBlock`:
`while (slotIndex < capacity && volumeBlocks[slotIndex]) slotIndex++`.
`fuel` bounds the iteration count; callers pass `s.capacity`, which the
guard `i < s.capacity` makes sufficient. -/
def Shelf.firstFreeFrom (s : Shelf) : ℕ → ℕ → ℕ
  | 0, i => i
  | fuel + 1, i =>
      if i < s.capacity ∧ (s.slotAt i).isSome then s.firstFreeFrom fuel (i + 1)
      else i

/-- `Shelf.addVolumeBlock(volumeBlock)`: fails on a full shelf or color
mismatch; otherwise writes the block into the first empty slot and
shelves it (`volumeBlock.shelve(this)`); `selfIdx` stands for the `this`
reference recorded on the block.  Returns the success flag and the
updated shelf. -/
def Shelf.addVolumeBlock (s : Shelf) (selfIdx : ℕ) (b : Block) : Bool × Shelf :=
  if ¬(s.hasEmptySlots = true) ∨ b.color ≠ s.color then (false, s)
  else
    let slotIndex := s.firstFreeFrom s.capacity 0
    if slotIndex < s.capacity then
      (true, { s with volumeBlocks := s.volumeBlocks.set slotIndex (some (b.shelve selfIdx)) })
    else
      (false, s)

/-- `Shelf.removeVolumeBlock(index)`: if the index is in range and the
slot is occupied, clear it, unshelve the block and return it. -/
def Shelf.removeVolumeBlock (s : Shelf) (index : ℕ) : Option Block × Shelf :=
  match s.slotAt index with
  | some b =>
      if index < s.volumeBlocks.length then
        (some b.unshelve, { s with volumeBlocks := s.volumeBlocks.set index none })
      else (none, s)
  | none => (none, s)

/-- Occupied slot indices of a shelf (the `volumeBlockIndices` array built
by `Shelf.removeRandomVolumeBlock`). -/
def Shelf.occupiedIndices (s : Shelf) : List ℕ :=
  (List.range s.volumeBlocks.length).filter fun i => (s.slotAt i).isSome

/-- `Shelf.removeRandomVolumeBlock()`: uniformly selects among occupied
slot indices and removes that slot's block; `r` is the random draw — the
source computes `Math.floor(Math.random() * indices.length)`, modelled as
`r % indices.length`, which ranges over exactly the same indices. -/
def Shelf.removeRandomVolumeBlock (s : Shelf) (r : ℕ) : Option Block × Shelf :=
  let indices := s.occupiedIndices
  if indices.isEmpty then (none, s)
  else
    let randomIndex := indices.getD (r % indices.length) 0
    s.removeVolumeBlock randomIndex

-- Basic facts about the slot-search loop.

theorem Shelf.firstFreeFrom_le (s : Shelf) :
    ∀ fuel i, s.firstFreeFrom fuel i ≤ fuel + i := by
  intro fuel
  induction fuel with
  | zero => intro i; simp [Shelf.firstFreeFrom]
  | succ n ih =>
      intro i
      simp only [Shelf.firstFreeFrom]
      by_cases h : i < s.capacity ∧ (s.slotAt i).isSome
      · simp only [h, if_true]
        calc s.firstFreeFrom n (i + 1) ≤ n + (i + 1) := ih (i + 1)
          _ = n + 1 + i := by omega
      · simp only [h, if_false]; omega

theorem Shelf.firstFreeFrom_occupied_before (s : Shelf) :
    ∀ fuel i j, i ≤ j → j < s.firstFreeFrom fuel i →
      (s.slotAt j).isSome := by
  intro fuel
  induction fuel with
  | zero =>
      intro i j hij hj
      simp [Shelf.firstFreeFrom] at hj; omega
  | succ n ih =>
      intro i j hij hj
      simp only [Shelf.firstFreeFrom] at hj
      by_cases h : i < s.capacity ∧ (s.slotAt i).isSome
      · simp only [h, if_true] at hj
        rcases Nat.eq_or_lt_of_le hij with rfl | hlt
        · exact h.2
        · exact ih (i + 1) j hlt hj
      · simp only [h, if_false] at hj; omega

theorem Shelf.firstFreeFrom_stops (s : Shelf) :
    ∀ fuel i, s.capacity ≤ fuel + i →
      s.capacity ≤ s.firstFreeFrom fuel i ∨
      (s.slotAt (s.firstFreeFrom fuel i)) = none := by
  intro fuel
  induction fuel with
  | zero =>
      intro i hi
      simp only [Shelf.firstFreeFrom]
      left; omega
  | succ n ih =>
      intro i hi
      simp only [Shelf.firstFreeFrom]
      by_cases h : i < s.capacity ∧ (s.slotAt i).isSome
      · simp only [h, if_true]
        exact ih (i + 1) (by omega)
      · simp only [h, if_false]
        rcases Nat.lt_or_ge i s.capacity with hlt | hge
        · right
          rcases Option.eq_none_or_eq_some (s.slotAt i) with hn | ⟨b, hb⟩
          · exact hn
          · exact absurd ⟨hlt, by simp [hb]⟩ h
        · left; exact hge

/-- The orchestrator's per-session data (`this.game.gameData`, reset in
`PlayingState.enter`). -/
structure GameData where
  chaosLevel : ℚ
  maxChaos : ℚ
  playerLevel : ℕ
  xp : ℕ
  xpToNext : ℕ
  elapsedTime : ℚ
  targetTime : ℚ
  volumeBlocksCollected : ℕ
  volumeBlocksShelved : ℕ
  kidsRepelled : ℕ
  deriving DecidableEq, Repr

/-- The initial game data of `PlayingState.enter`. -/
def GameData.init : GameData :=
  { chaosLevel := 0, maxChaos := 100, playerLevel := 1, xp := 0,
    xpToNext := 100, elapsedTime := 0, targetTime := 30 * 60,
    volumeBlocksCollected := 0, volumeBlocksShelved := 0, kidsRepelled := 0 }

/-- Player stat block (`Player.js`, not among the available sources).
Modelled from the spec: "stat block (pickup radius, return radius,
carry-slot count, stamina, chaos-dampening, XP multiplier)" (§3). -/
structure PlayerStats where
  pickupRadius : ℚ
  returnRadius : ℚ
  carrySlots : ℕ
  stamina : ℚ
  maxStamina : ℚ
  chaosDampening : ℚ
  xpMultiplier : ℚ
  deriving DecidableEq, Repr

/-- The player entity (`Player.js`, not among the available sources).
Modelled from the spec: position, stats, repel radius, and the "ordered
collection of carried Blocks (bounded by carry-slot count)" (§3). -/
structure Player where
  x : ℚ
  y : ℚ
  width : ℚ
  height : ℚ
  repelRadius : ℚ
  stats : PlayerStats
  carriedVolumeBlocks : List Block
  deriving DecidableEq, Repr

/-- Center x of the player (`Entity.getCenterX`). -/
def Player.getCenterX (p : Player) : ℚ := p.x + p.width / 2

/-- Center y of the player (`Entity.getCenterY`). -/
def Player.getCenterY (p : Player) : ℚ := p.y + p.height / 2

/-- Modelled from the spec: `Player.getXPMultiplier()` returns the
player's XP-multiplier stat. -/
def Player.getXPMultiplier (p : Player) : ℚ := p.stats.xpMultiplier

/-- Modelled from the spec: `Player.pickupVolumeBlock(block)` appends the
block to the ordered carried collection when a carry slot is free and
reports success; on a full collection it fails with no side effect
(§3 "bounded by carry-slot count", §7 "boolean failure returns"). -/
def Player.pickupVolumeBlock (p : Player) (b : Block) : Bool × Player :=
  if p.carriedVolumeBlocks.length < p.stats.carrySlots then
    (true, { p with carriedVolumeBlocks := p.carriedVolumeBlocks ++ [b] })
  else (false, p)

/-- Helper for `Player.shelveVolumeBlock`: remove the first carried block
of the given color. -/
def takeFirstOfColor (color : String) :
    List Block → Option Block × List Block
  | [] => (none, [])
  | b :: rest =>
      if b.color = color then (some b, rest)
      else
        let r := takeFirstOfColor color rest
        (r.1, b :: r.2)

/-- Modelled from the spec: `Player.shelveVolumeBlock(shelf)` removes and
returns a carried block matching the shelf's color ("try to shelve
matching volume blocks"), or returns nothing when no carried block
matches. -/
def Player.shelveVolumeBlock (p : Player) (shelfColor : String) :
    Option Block × Player :=
  let r := takeFirstOfColor shelfColor p.carriedVolumeBlocks
  (r.1, { p with carriedVolumeBlocks := r.2 })

/-- Oracle for the transcendental math functions used by `Kid.js`
(`Math.sqrt`, `Math.cos`, `Math.sin`, `Math.atan2`, `Math.PI`).  The
claims under verification never depend on the numeric values these
produce, so they are kept abstract; concrete witnesses instantiate them
with arbitrary rational functions. -/
structure MathO where
  sqrt : ℚ → ℚ
  cos : ℚ → ℚ
  sin : ℚ → ℚ
  atan2 : ℚ → ℚ → ℚ
  pi : ℚ

/-- A trivial oracle instantiation used by concrete witnesses. -/
def MathO.triv : MathO :=
  { sqrt := fun q => q, cos := fun _ => 1, sin := fun _ => 0,
    atan2 := fun _ _ => 0, pi := 3 }

/-- The kid agent (`Kid.js`).  Field-for-field translation of the
constructor's state, minus rendering-only fields (sprite type, animation
frame/timer, facing).  `kidId` stands for the JS object's identity and is
used when the kid becomes a block's holder (`volumeBlock.holder = this`). -/
structure Kid where
  kidId : ℕ
  x : ℚ
  y : ℚ
  vx : ℚ := 0
  vy : ℚ := 0
  width : ℚ := 48
  height : ℚ := 60
  aggressionLevel : ℕ := 1
  speed : ℚ
  fleeSpeed : ℚ
  direction : ℚ
  directionChangeTimer : ℚ := 0
  directionChangeInterval : ℚ := 2
  state : KidState := .wandering
  target : Option Shelf := none
  carriedVolumeBlock : Option Block := none
  volumeBlockStealCooldown : ℚ := 0
  volumeBlockStealCooldownTime : ℚ
  dropVolumeBlockTimer : ℚ := 0
  grabDelay : ℚ := 0
  grabDelayTime : ℚ
  dropVolumeBlockMinTime : ℚ
  dropVolumeBlockMaxTime : ℚ
  shelfDetectionRange : ℚ := 160
  playerDetectionRange : ℚ := 120
  stuckTimer : ℚ := 0
  isMoving : Bool := false
  hasPlayedLaughSound : Bool := false
  fleeTimer : Option ℚ := none

/-- The `Kid` constructor (`new Kid(game, x, y, aggressionLevel)`):
aggression-scaled speeds, cooldowns and delays, and the random initial
direction (`Math.random() * Math.PI * 2`, supplied as `dirDraw`).  The
spawn-safety relocation (`ensureSafeSpawnPosition`) and the random sprite
type are outside the claims and omitted. -/
def Kid.init (kidId : ℕ) (x y : ℚ) (aggressionLevel : ℕ) (dirDraw : ℚ) : Kid :=
  { kidId := kidId, x := x, y := y,
    aggressionLevel := aggressionLevel,
    speed := if aggressionLevel = 1 then 70 else if aggressionLevel = 2 then 80 else 90,
    fleeSpeed := if aggressionLevel = 1 then 100 else if aggressionLevel = 2 then 110 else 120,
    direction := dirDraw,
    volumeBlockStealCooldownTime :=
      if aggressionLevel = 1 then 2 else if aggressionLevel = 2 then 3/2 else 1,
    grabDelayTime :=
      if aggressionLevel = 1 then 1 else if aggressionLevel = 2 then 1/2 else 1/5,
    dropVolumeBlockMinTime :=
      if aggressionLevel = 1 then 4 else if aggressionLevel = 2 then 3 else 2,
    dropVolumeBlockMaxTime :=
      if aggressionLevel = 1 then 6 else if aggressionLevel = 2 then 4 else 3 }

/-- Center x of a kid (`Entity.getCenterX`). -/
def Kid.getCenterX (k : Kid) : ℚ := k.x + k.width / 2

/-- Center y of a kid (`Entity.getCenterY`). -/
def Kid.getCenterY (k : Kid) : ℚ := k.y + k.height / 2

/-- `Kid.getDistanceTo(entity)` specialised to an entity given by its
center point: `sqrt(dx*dx + dy*dy)` through the math oracle. -/
def Kid.distanceToCenter (o : MathO) (k : Kid) (cx cy : ℚ) : ℚ :=
  let dx := k.getCenterX - cx
  let dy := k.getCenterY - cy
  o.sqrt (dx * dx + dy * dy)

/-- `Kid.checkCollision(x, y, entity)` against a shelf's collision box
(offset 0,0, full 64 × 96 extent, per the `Shelf` constructor). -/
def Kid.checkCollision (k : Kid) (x y : ℚ) (s : Shelf) : Bool :=
  let kidLeft := x
  let kidRight := x + k.width
  let kidTop := y
  let kidBottom := y + k.height
  let entityLeft := s.x
  let entityRight := entityLeft + s.width
  let entityTop := s.y
  let entityBottom := entityTop + s.height
  ¬(kidLeft ≥ entityRight ∨ kidRight ≤ entityLeft ∨
    kidTop ≥ entityBottom ∨ kidBottom ≤ entityTop)

/-- `Kid.isNearShelf(shelf, distance)`: overlap of the kid's bounds with
the shelf's bounds expanded by `distance`. -/
def Kid.isNearShelf (k : Kid) (s : Shelf) (distance : ℚ) : Bool :=
  let kidLeft := k.x
  let kidRight := k.x + k.width
  let kidTop := k.y
  let kidBottom := k.y + k.height
  let expandedLeft := s.x - distance
  let expandedRight := s.x + s.width + distance
  let expandedTop := s.y - distance
  let expandedBottom := s.y + s.height + distance
  ¬(kidLeft ≥ expandedRight ∨ kidRight ≤ expandedLeft ∨
    kidTop ≥ expandedBottom ∨ kidBottom ≤ expandedTop)

/-- The shelf-collision scan of `Kid.applyMovement`: fold over the shelf
list computing which axes remain movable, with the source's quick bounds
check (radius 150) and early exit once both axes are blocked. -/
def Kid.scanShelves (k : Kid) (newX newY : ℚ) :
    List Shelf → Bool × Bool → Bool × Bool
  | [], acc => acc
  | s :: rest, (canMoveX, canMoveY) =>
      if |s.x - k.x| > 150 ∨ |s.y - k.y| > 150 then
        Kid.scanShelves k newX newY rest (canMoveX, canMoveY)
      else
        let canMoveX' := canMoveX && !(k.checkCollision newX k.y s)
        let canMoveY' := canMoveY && !(k.checkCollision k.x newY s)
        if ¬canMoveX' ∧ ¬canMoveY' then (canMoveX', canMoveY')
        else Kid.scanShelves k newX newY rest (canMoveX', canMoveY')

/-- Random draws consumed by one `Kid.applyMovement` call: the two bounce
jitters `(Math.random() - 0.5) * 0.5` and the fresh unstuck heading
`Math.random() * Math.PI * 2`.  Each field holds the raw `Math.random()`
value in `[0, 1)`. -/
structure MoveDraws where
  bounceXr : ℚ := 0
  bounceYr : ℚ := 0
  unstuckR : ℚ := 0

/-- `Kid.applyMovement(deltaTime)`: axis-separated movement against the
shelves' collision boxes.  A blocked X (resp. Y) axis damps and reflects
that velocity component (`v := -v * 0.3`) and, for Wandering agents,
nudges the heading; when both axes are blocked and the agent is
Wandering, a brand-new random heading is chosen and the velocity set from
it at half speed.  `shelves` may be empty only through the model; the
`!state.shelves` guard of the source (no collision data) is modelled by
the caller passing the world's shelf list. -/
def Kid.applyMovement (o : MathO) (dr : MoveDraws) (shelves : List Shelf)
    (k : Kid) (dt : ℚ) : Kid :=
  let newX := k.x + k.vx * dt
  let newY := k.y + k.vy * dt
  let scan := k.scanShelves newX newY shelves (true, true)
  let canMoveX := scan.1
  let canMoveY := scan.2
  let k1 :=
    if canMoveX then { k with x := newX }
    else
      { k with vx := -k.vx * (3/10),
               direction :=
                 if k.state = .wandering then
                   o.pi - k.direction + (dr.bounceXr - 1/2) * (1/2)
                 else k.direction }
  let k2 :=
    if canMoveY then { k1 with y := newY }
    else
      { k1 with vy := -k1.vy * (3/10),
                direction :=
                  if k1.state = .wandering then
                    -k1.direction + (dr.bounceYr - 1/2) * (1/2)
                  else k1.direction }
  if ¬canMoveX ∧ ¬canMoveY ∧ k2.state = .wandering then
    let d := dr.unstuckR * o.pi * 2
    { k2 with direction := d,
              vx := o.cos d * k2.speed * (1/2),
              vy := o.sin d * k2.speed * (1/2) }
  else k2

/-- The shared world snapshot an agent reads during its update
(`this.game.stateManager.currentState`): the player, the shelf list and
the world bounds.  The `if (!state) return` guard of the source (no
current state) does not arise in the model, whose callers always supply
the view. -/
structure WorldView where
  player : Option Player
  shelves : List Shelf
  worldWidth : ℚ := 1920
  worldHeight : ℚ := 1080

/-- The player-proximity test that opens `Kid.updateWandering` and
`Kid.updateStealing`: the player exists and the center distance is below
`playerDetectionRange`. -/
def Kid.playerTooClose (o : MathO) (st : WorldView) (k : Kid) : Bool :=
  match st.player with
  | none => false
  | some p => k.distanceToCenter o p.getCenterX p.getCenterY < k.playerDetectionRange

/-- The shelf-scan loop of `Kid.updateWandering`: the first shelf passing
the quick bounds check whose distance is within `shelfDetectionRange` and
which has stocked slots. -/
def Kid.findStealTarget (o : MathO) (k : Kid) : List Shelf → Option Shelf
  | [] => none
  | s :: rest =>
      if |s.x - k.x| > k.shelfDetectionRange ∨ |s.y - k.y| > k.shelfDetectionRange then
        k.findStealTarget o rest
      else if k.distanceToCenter o s.getCenterX s.getCenterY < k.shelfDetectionRange ∧
              s.volumeBlocks.any Option.isSome then
        some s
      else k.findStealTarget o rest

/-- The nearest-stocked-shelf fold of `Kid.updateWandering`
(`nearestShelf` / `nearestDist`, with `none` standing for the initial
`Infinity` distance). -/
def Kid.nearestStockedShelf (o : MathO) (k : Kid) :
    List Shelf → Option (Shelf × ℚ) → Option Shelf
  | [], acc => acc.map Prod.fst
  | s :: rest, acc =>
      if s.volumeBlocks.any Option.isSome then
        let dist := k.distanceToCenter o s.getCenterX s.getCenterY
        let closer := match acc with
          | none => true
          | some (_, nd) => dist < nd
        k.nearestStockedShelf o rest (if closer then some (s, dist) else acc)
      else k.nearestStockedShelf o rest acc

/-- Random draws consumed by one `Kid.updateWandering` call (each field
is the raw `Math.random()` value of the corresponding call site). -/
structure WanderDraws where
  centerJitterR : ℚ := 0
  awayJitterR : ℚ := 0
  freshDirR : ℚ := 0
  edgeJitterR : ℚ := 0
  mv : MoveDraws := {}

/-- `Kid.updateWandering(deltaTime)`: flee when the player is near
(incrementing the repelled counter when not already fleeing, and playing
the one-shot laugh cue, modelled by the `hasPlayedLaughSound` flag);
otherwise look for a shelf to steal from, else steer (toward the nearest
stocked shelf, the world center, or away from the last target), turn
toward the center at world edges, and move. -/
def Kid.updateWandering (o : MathO) (dr : WanderDraws) (st : WorldView)
    (k : Kid) (gd : GameData) (dt : ℚ) : Kid × GameData :=
  if k.playerTooClose o st then
    let gd' := if k.state ≠ .fleeing then
        { gd with kidsRepelled := gd.kidsRepelled + 1 } else gd
    ({ k with state := .fleeing, hasPlayedLaughSound := true }, gd')
  else
    let found :=
      if k.carriedVolumeBlock.isNone ∧ k.volumeBlockStealCooldown ≤ 0 then
        k.findStealTarget o st.shelves
      else none
    match found with
    | some s => ({ k with target := some s, state := .stealing }, gd)
    | none =>
      let k2 :=
        if k.carriedVolumeBlock.isNone ∧ k.volumeBlockStealCooldown ≤ 0 ∧
           st.shelves.length > 0 then
          match k.nearestStockedShelf o st.shelves none with
          | some ns =>
              { k with direction := (
                  o.atan2 (ns.getCenterY - k.getCenterY) (ns.getCenterX - k.getCenterX)) }
          | none =>
              let t := k.directionChangeTimer - dt
              if t ≤ 0 then
                { k with
                  direction := (
                    o.atan2 (st.worldHeight / 2 - k.getCenterY)
                      (st.worldWidth / 2 - k.getCenterX) +
                      (dr.centerJitterR - 1/2) * (1/2)),
                  directionChangeTimer := 1 }
              else { k with directionChangeTimer := t }
        else
          let t := k.directionChangeTimer - dt
          if t ≤ 0 then
            match k.target with
            | some tgt =>
                { k with
                  direction := (
                    o.atan2 (k.getCenterY - tgt.getCenterY) (k.getCenterX - tgt.getCenterX) +
                      (dr.awayJitterR - 1/2) * (o.pi / 2)),
                  directionChangeTimer := 3/2 }
            | none =>
                { k with direction := dr.freshDirR * o.pi * 2,
                         directionChangeTimer := 3/2 }
          else { k with directionChangeTimer := t }
      let k3 := { k2 with vx := o.cos k2.direction * k2.speed,
                          vy := o.sin k2.direction * k2.speed }
      let k4 :=
        if st.worldWidth ≠ 0 ∧ st.worldHeight ≠ 0 then
          if k3.x ≤ (20 : ℚ) ∨ k3.x ≥ st.worldWidth - k3.width - 20 ∨
             k3.y ≤ (20 : ℚ) ∨ k3.y ≥ st.worldHeight - k3.height - 20 then
            { k3 with direction := (
                o.atan2 (st.worldHeight / 2 - k3.getCenterY)
                  (st.worldWidth / 2 - k3.getCenterX) +
                  (dr.edgeJitterR - 1/2) * (1/2)) }
          else k3
        else k3
      (k4.applyMovement o dr.mv st.shelves dt, gd)

/-- Random draws consumed by one `Kid.dropVolumeBlock` call. -/
structure DropDraws where
  angleR : ℚ := 0
  distR : ℚ := 0
  velXr : ℚ := 0
  velYr : ℚ := 0

/-- `Kid.dropVolumeBlock()`: release the carried block to the floor,
positioned near the last target shelf (radius 180) or the kid's position
(radius 60), clamped into the world with a 20-pixel margin, with a small
random velocity.  Returns the kid and the released block. -/
def Kid.dropVolumeBlock (o : MathO) (dd : DropDraws) (st : WorldView)
    (k : Kid) : Kid × Option Block :=
  match k.carriedVolumeBlock with
  | none => (k, none)
  | some volumeBlock =>
      let vb1 := { volumeBlock with
        isHeld := false, holder := none, isShelved := false, visible := true }
      let dropXY : ℚ × ℚ :=
        match k.target with
        | some shelf =>
            let randomAngle := dd.angleR * o.pi * 2
            let randomDistance := dd.distR * 180
            (shelf.getCenterX + o.cos randomAngle * randomDistance - vb1.width / 2,
             shelf.getCenterY + o.sin randomAngle * randomDistance - vb1.height / 2)
        | none =>
            let randomAngle := dd.angleR * o.pi * 2
            let randomDistance := dd.distR * 60
            (k.getCenterX + o.cos randomAngle * randomDistance - vb1.width / 2,
             k.getCenterY + o.sin randomAngle * randomDistance - vb1.height / 2)
      let clamped :=
        if st.worldWidth ≠ 0 ∧ st.worldHeight ≠ 0 then
          (max 20 (min (st.worldWidth - vb1.width - 20) dropXY.1),
           max 20 (min (st.worldHeight - vb1.height - 20) dropXY.2))
        else dropXY
      let vb2 := { vb1 with
        x := clamped.1, y := clamped.2,
        vx := (dd.velXr - 1/2) * 40, vy := (dd.velYr - 1/2) * 40 }
      ({ k with carriedVolumeBlock := none }, some vb2)

/-- JS truthiness of the `fleeTimer` field (`undefined`/`null`/`0` are
falsy). -/
def isFalsyTimer : Option ℚ → Bool
  | none => true
  | some q => q == 0

/-- Random draws consumed by one `Kid.updateFleeing` call.  The default
`dropChanceR = 1` makes the scared-drop test fail for `dt < 1/2`. -/
structure FleeDraws where
  dropChanceR : ℚ := 1
  dropD : DropDraws := {}
  mv : MoveDraws := {}

/-- `Kid.updateFleeing(deltaTime)`: with no player, run on the current
heading and stop fleeing after the 1-second timer (resetting the one-shot
laugh flag); with a player beyond `1.5 × playerDetectionRange`, return to
wandering (resetting the flag); otherwise run away from the player and,
while carrying, drop the block with probability `2 · dt` per tick.
The function never touches the game data. -/
def Kid.updateFleeing (o : MathO) (dr : FleeDraws) (st : WorldView)
    (k : Kid) (dt : ℚ) : Kid × Option Block :=
  match st.player with
  | none =>
      let k1 := { k with vx := o.cos k.direction * k.fleeSpeed,
                         vy := o.sin k.direction * k.fleeSpeed }
      let k2 := k1.applyMovement o dr.mv st.shelves dt
      let ft0 := if isFalsyTimer k2.fleeTimer then (1 : ℚ) else k2.fleeTimer.getD 0
      let ftv := ft0 - dt
      if ftv ≤ 0 then
        ({ k2 with fleeTimer := none, state := .wandering,
                   hasPlayedLaughSound := false }, none)
      else ({ k2 with fleeTimer := some ftv }, none)
  | some p =>
      let distToPlayer := k.distanceToCenter o p.getCenterX p.getCenterY
      if distToPlayer > k.playerDetectionRange * (3/2) then
        ({ k with state := .wandering, hasPlayedLaughSound := false }, none)
      else
        let dx := k.getCenterX - p.getCenterX
        let dy := k.getCenterY - p.getCenterY
        let dist := o.sqrt (dx * dx + dy * dy)
        let k1 := if dist > 0 then
            { k with vx := dx / dist * k.fleeSpeed, vy := dy / dist * k.fleeSpeed }
          else k
        let k2 := k1.applyMovement o dr.mv st.shelves dt
        if k2.carriedVolumeBlock.isSome ∧ dr.dropChanceR < 2 * dt then
          k2.dropVolumeBlock o dr.dropD st
        else (k2, none)

/-- Random draws consumed by one `Kid.updateStealing` call.  `slotR` is
the integer draw selecting an occupied slot; `coinR` is the 50/50
`Math.random()` (drop to floor when `< 1/2`, carry otherwise). -/
structure StealDraws where
  slotR : ℕ := 0
  coinR : ℚ := 0
  dropAngleR : ℚ := 0
  dropDistR : ℚ := 0
  dropVelXr : ℚ := 0
  dropVelYr : ℚ := 0
  mv : MoveDraws := {}

/-- `Kid.updateStealing(deltaTime)`: lose the target (or be carrying)
and go back to wandering; flee when the player is near (incrementing the
repelled counter); approach the target shelf until within the 5-pixel
bounding-box proximity, then wait out the grab delay; on grab, remove a
random block — 50% knocked to the floor near the shelf, 50% carried
(`isHeld`, `holder := this`) — set the steal cooldown and flee; when the
shelf turned out empty, go back to wandering with a 1-second cooldown.
Returns (kid, gameData, updated target shelf, block released to floor). -/
def Kid.updateStealing (o : MathO) (dr : StealDraws) (st : WorldView)
    (k : Kid) (gd : GameData) (dt : ℚ) :
    Kid × GameData × Option Shelf × Option Block :=
  match k.target with
  | none => ({ k with state := .wandering }, gd, none, none)
  | some tgt =>
    if k.carriedVolumeBlock.isSome then
      ({ k with state := .wandering }, gd, none, none)
    else if k.playerTooClose o st then
      let gd' := if k.state ≠ .fleeing then
          { gd with kidsRepelled := gd.kidsRepelled + 1 } else gd
      ({ k with state := .fleeing, hasPlayedLaughSound := true }, gd', none, none)
    else
      let dx := tgt.getCenterX - k.getCenterX
      let dy := tgt.getCenterY - k.getCenterY
      let dist := o.sqrt (dx * dx + dy * dy)
      if ¬(k.isNearShelf tgt 5 = true) then
        let k1 := { k with vx := dx / dist * k.speed, vy := dy / dist * k.speed }
        (k1.applyMovement o dr.mv st.shelves dt, gd, none, none)
      else
        let g0 := if k.grabDelay ≤ 0 then k.grabDelayTime else k.grabDelay
        let g1 := g0 - dt
        if g1 ≤ 0 then
          let rem := tgt.removeRandomVolumeBlock dr.slotR
          match rem.1 with
          | some volumeBlock =>
              if dr.coinR < 1/2 then
                let randomAngle := dr.dropAngleR * o.pi * 2
                let randomDistance := dr.dropDistR * 150
                let vb := { volumeBlock with
                  x := tgt.getCenterX + o.cos randomAngle * randomDistance -
                        volumeBlock.width / 2,
                  y := tgt.getCenterY + o.sin randomAngle * randomDistance -
                        volumeBlock.height / 2,
                  vx := (dr.dropVelXr - 1/2) * 60,
                  vy := (dr.dropVelYr - 1/2) * 60,
                  visible := true }
                ({ k with volumeBlockStealCooldown := k.volumeBlockStealCooldownTime,
                          state := .fleeing, target := none, grabDelay := 0 },
                 gd, some rem.2, some vb)
              else
                let vb := { volumeBlock with
                  isHeld := true, holder := some (.kid k.kidId), visible := true }
                ({ k with carriedVolumeBlock := some vb,
                          volumeBlockStealCooldown := k.volumeBlockStealCooldownTime,
                          state := .fleeing, target := none, grabDelay := 0 },
                 gd, some rem.2, none)
          | none =>
              ({ k with state := .wandering, volumeBlockStealCooldown := 1,
                        target := none, grabDelay := 0 },
               gd, some rem.2, none)
        else
          ({ k with grabDelay := g1 }, gd, none, none)

/-- Random draws consumed by one full `Kid.update` call. -/
structure UpdateDraws where
  wander : WanderDraws := {}
  flee : FleeDraws := {}
  steal : StealDraws := {}
  stuckDirR : ℚ := 0
  dropThreshR : ℚ := 1
  dropD : DropDraws := {}

/-- The result of one full `Kid.update` step: the agent, the game data,
the blocks newly released to the floor (steal-drop, scared-drop or
force-drop) and the agent's target shelf when the step mutated it. -/
structure KidStepOut where
  kid : Kid
  gd : GameData
  released : List Block
  shelfUpd : Option Shelf

/-- `Kid.update(deltaTime)`: tick the steal cooldown, dispatch on the
behavior state, update `isMoving` (the animation bookkeeping it gates is
rendering-only and omitted), run stuck detection, advance the carried
drop timer (force-dropping past a random threshold in
`[dropVolumeBlockMinTime, dropVolumeBlockMaxTime]` and returning to
wandering), and clamp to the world bounds. -/
def Kid.update (o : MathO) (dr : UpdateDraws) (st : WorldView) (k : Kid)
    (gd : GameData) (dt : ℚ) : KidStepOut :=
  let k0 := if k.volumeBlockStealCooldown > 0 then
      { k with volumeBlockStealCooldown := k.volumeBlockStealCooldown - dt } else k
  let stepped : Kid × GameData × Option Shelf × Option Block :=
    match k0.state with
    | .wandering =>
        let r := k0.updateWandering o dr.wander st gd dt
        (r.1, r.2, none, none)
    | .fleeing =>
        let r := k0.updateFleeing o dr.flee st dt
        (r.1, gd, none, r.2)
    | .stealing => k0.updateStealing o dr.steal st gd dt
  let k1 := stepped.1
  let k2 := { k1 with isMoving := k1.vx != 0 || k1.vy != 0 }
  let k3 :=
    if |k2.vx| < 1/10 ∧ |k2.vy| < 1/10 then
      let t := k2.stuckTimer + dt
      if t > 1 then { k2 with direction := dr.stuckDirR * o.pi * 2, stuckTimer := 0 }
      else { k2 with stuckTimer := t }
    else { k2 with stuckTimer := 0 }
  let step2 : Kid × Option Block :=
    if k3.carriedVolumeBlock.isSome then
      let k4 := { k3 with dropVolumeBlockTimer := k3.dropVolumeBlockTimer + dt }
      if k4.dropVolumeBlockTimer >
          k4.dropVolumeBlockMinTime +
            dr.dropThreshR * (k4.dropVolumeBlockMaxTime - k4.dropVolumeBlockMinTime) then
        let r := k4.dropVolumeBlock o dr.dropD st
        ({ r.1 with dropVolumeBlockTimer := 0, state := .wandering }, r.2)
      else (k4, none)
    else (k3, none)
  let k5 := step2.1
  let k6 :=
    if st.worldWidth ≠ 0 ∧ st.worldHeight ≠ 0 then
      { k5 with x := max 0 (min (st.worldWidth - k5.width) k5.x),
                y := max 0 (min (st.worldHeight - k5.height) k5.y) }
    else k5
  { kid := k6, gd := stepped.2.1,
    released := stepped.2.2.2.toList ++ step2.2.toList,
    shelfUpd := stepped.2.2.1 }

/-- Does a block's holder dynamically test as a `Kid`
(`volumeBlock.holder && volumeBlock.holder.constructor.name === 'Kid'`)? -/
def holderIsKid : Option Holder → Bool
  | some (.kid _) => true
  | _ => false

/-- `PlayingState.updateChaos(deltaTime)`: `chaosSource` counts blocks on
the floor (neither held nor shelved) plus blocks held by a kid; while any
exist, chaos accrues at a per-block rate tiered by elapsed minutes
(`<3 → 0.05`, `[3,5) → 0.03`, `≥5 → 0.01` per second), scaled by
`deltaTime` and the `(1 - chaosDampening/100)` multiplier; with no
source and positive chaos, a flat `0.1/s` decay applies; the result is
clamped to `[0, maxChaos]`. -/
def PlayingState.updateChaos (volumeBlocks : List Block) (player : Option Player)
    (gd : GameData) (dt : ℚ) : GameData :=
  let volumeBlocksOnFloor :=
    (volumeBlocks.filter fun vb => !vb.isHeld && !vb.isShelved).length
  let volumeBlocksHeldByKids :=
    (volumeBlocks.filter fun vb => vb.isHeld && holderIsKid vb.holder).length
  let totalChaosVolumeBlocks := volumeBlocksOnFloor + volumeBlocksHeldByKids
  let gd1 :=
    if totalChaosVolumeBlocks > 0 then
      let minutes := gd.elapsedTime / 60
      let chaosPerVolumeBlock : ℚ :=
        if minutes < 3 then 1/20 else if minutes < 5 then 3/100 else 1/100
      let chaosRate := (totalChaosVolumeBlocks : ℚ) * chaosPerVolumeBlock
      let chaosDampening := match player with
        | some p => p.stats.chaosDampening
        | none => 0
      let chaosMultiplier := 1 - chaosDampening / 100
      { gd with chaosLevel := gd.chaosLevel + chaosRate * dt * chaosMultiplier }
    else gd
  let gd2 :=
    if gd1.chaosLevel > 0 ∧ totalChaosVolumeBlocks = 0 then
      { gd1 with chaosLevel := gd1.chaosLevel - (1/10) * dt }
    else gd1
  { gd2 with chaosLevel := max 0 (min gd2.maxChaos gd2.chaosLevel) }

/-- The XP requirement of a level:
`Math.floor(100 * Math.pow(1.45, level - 1))`, computed exactly on
naturals as `(100 * 29^(level-1)) / 20^(level-1)`. -/
def xpReq (lvl : ℕ) : ℕ := (100 * 29 ^ (lvl - 1)) / 20 ^ (lvl - 1)

/-- The level-up loop of `PlayingState.awardXP`
(`while (xp >= xpToNext) { xp -= xpToNext; level++; xpToNext = … }`),
with explicit fuel bounding the iteration count (each iteration consumes
at least one XP whenever the requirement is positive, so callers pass
`xp + 1`).  Returns the final xp, level, requirement and the number of
levels gained — each gained level refills the stamina and pushes one
upgrade-selection interruption in the source. -/
def PlayingState.levelLoop : ℕ → ℕ → ℕ → ℕ → ℕ × ℕ × ℕ × ℕ
  | 0, xp, lvl, next => (xp, lvl, next, 0)
  | fuel + 1, xp, lvl, next =>
      if next ≤ xp then
        let r := PlayingState.levelLoop fuel (xp - next) (lvl + 1) (xpReq (lvl + 1))
        (r.1, r.2.1, r.2.2.1, r.2.2.2 + 1)
      else (xp, lvl, next, 0)

/-- `PlayingState.awardXP(amount)`: multiply by the player's XP
multiplier (`|| 1` when absent or zero), apply the early-game 1.5× boost
before two minutes, floor to an integer, add to the XP, and run the
level-up loop.  Per-level effects: the in-loop stamina refill is
idempotent and applied once when any level was gained; the in-loop
`pushState('upgradeSelection')` calls are counted in the returned signal
counter.  The floating XP particle is presentation-only and omitted. -/
def PlayingState.awardXP (amount : ℕ) (player : Option Player) (gd : GameData)
    (upgradeSignals : ℕ) : Option Player × GameData × ℕ :=
  let base := match player with
    | some p => p.getXPMultiplier
    | none => 1
  let baseOr1 := if base = 0 then 1 else base
  let xpMultiplier := if gd.elapsedTime < 120 then baseOr1 * (3/2) else baseOr1
  let multipliedAmount := (Int.floor ((amount : ℚ) * xpMultiplier)).toNat
  let xp1 := gd.xp + multipliedAmount
  let r := PlayingState.levelLoop (xp1 + 1) xp1 gd.playerLevel gd.xpToNext
  let gained := r.2.2.2
  let player' :=
    if gained > 0 then
      player.map fun p => { p with stats := { p.stats with stamina := p.stats.maxStamina } }
    else player
  (player', { gd with xp := r.1, playerLevel := r.2.1, xpToNext := r.2.2.1 },
   upgradeSignals + gained)

/-- `PlayingState.awardXP` as used inside the interaction loops, where
the player is present. -/
def PlayingState.awardXPTo (amount : ℕ) (p : Player) (gd : GameData)
    (sig : ℕ) : Player × GameData × ℕ :=
  let r := PlayingState.awardXP amount (some p) gd sig
  (r.1.getD p, r.2.1, r.2.2)

/-- The eight spawn points of the `PlayingState` constructor. -/
def PlayingState.spawnPoints : List (ℚ × ℚ) :=
  [(500, 400), (1500, 400), (500, 800), (1500, 800),
   (1000, 300), (1000, 900), (300, 600), (1700, 600)]

/-- The wave cap of `PlayingState.updateKidSpawning`: max concurrent kids
as a step function of elapsed minutes. -/
def PlayingState.maxKidsForMinutes (minutes : ℚ) : ℕ :=
  if minutes < 1 then 3
  else if minutes < 3 then 5
  else if minutes < 5 then 7
  else if minutes < 10 then 10
  else 10 + (Int.floor (minutes - 10)).toNat * 2

/-- The aggression tier chosen at spawn time in
`PlayingState.updateKidSpawning`, mirroring the source's cascade
(`>= 15 → 3`, `>= 10 → 3`, `>= 5 → 2`, else 1). -/
def PlayingState.aggressionForMinutes (minutes : ℚ) : ℕ :=
  if minutes ≥ 15 then 3
  else if minutes ≥ 10 then 3
  else if minutes ≥ 5 then 2
  else 1

/-- The spawn-scheduler state carried on the `PlayingState` instance. -/
structure SpawnState where
  maxKids : ℕ
  kidSpawnTimer : ℚ
  kidSpawnInterval : ℚ
  kids : List Kid
  notifActive : Bool := false
  notifIncrease : ℕ := 0
  notifTimer : ℚ := 0
  notifDuration : ℚ := 3

/-- The wave-cap segment of `PlayingState.updateKidSpawning`: raise
`maxKids` to the step-function value when that exceeds it (the rising
edge), arming the on-screen notification; never lower it. -/
def PlayingState.waveCapStep (minutes : ℚ) (st : SpawnState) : SpawnState :=
  let newMaxKids := PlayingState.maxKidsForMinutes minutes
  if newMaxKids > st.maxKids then
    { st with maxKids := newMaxKids, notifActive := true,
              notifIncrease := newMaxKids - st.maxKids,
              notifTimer := 0, notifDuration := 3 }
  else st

/-- The notification-timer segment of `PlayingState.updateKidSpawning`. -/
def PlayingState.notifStep (st : SpawnState) (dt : ℚ) : SpawnState :=
  if st.notifActive then
    let t := st.notifTimer + dt
    if t ≥ st.notifDuration then { st with notifTimer := t, notifActive := false }
    else { st with notifTimer := t }
  else st

/-- The spawning segment of `PlayingState.updateKidSpawning`: blocked at
the cap (returning before the timer even ticks); otherwise run down the
spawn timer and, on expiry, spawn a kid at a uniformly random spawn
point (`spawnR` is the random index draw, `Math.floor(Math.random() *
length)` modelled as `spawnR % length`) with the time-derived aggression
tier, resetting the recurring 15-second timer. -/
def PlayingState.spawnStep (spawnR : ℕ) (dirDraw : ℚ) (nextKidId : ℕ)
    (minutes : ℚ) (st : SpawnState) (dt : ℚ) : SpawnState :=
  if st.kids.length ≥ st.maxKids then st
  else
    let timer := st.kidSpawnTimer - dt
    if timer ≤ 0 then
      let aggressionLevel := PlayingState.aggressionForMinutes minutes
      let spawnInterval : ℚ := 15
      let sp := PlayingState.spawnPoints.getD
        (spawnR % PlayingState.spawnPoints.length) (0, 0)
      let kid := Kid.init nextKidId sp.1 sp.2 aggressionLevel dirDraw
      { st with kids := st.kids ++ [kid], kidSpawnTimer := spawnInterval,
                kidSpawnInterval := spawnInterval }
    else { st with kidSpawnTimer := timer }

/-- `PlayingState.updateKidSpawning(deltaTime)`: the wave-cap update,
the notification timer and the gated spawn, in the source's order.
`dirDraw` is the new kid's random initial heading and `nextKidId` its
model identity. -/
def PlayingState.updateKidSpawning (spawnR : ℕ) (dirDraw : ℚ) (nextKidId : ℕ)
    (elapsedTime : ℚ) (st : SpawnState) (dt : ℚ) : SpawnState :=
  let minutes := elapsedTime / 60
  PlayingState.spawnStep spawnR dirDraw nextKidId minutes
    (PlayingState.notifStep (PlayingState.waveCapStep minutes st) dt) dt

/-- `PlayingState.isPlayerNearShelf(shelf, distance)`: overlap of the
player's bounds with the shelf's bounds expanded by `distance`. -/
def PlayingState.isPlayerNearShelf (p : Player) (s : Shelf) (distance : ℚ) : Bool :=
  let playerLeft := p.x
  let playerRight := p.x + p.width
  let playerTop := p.y
  let playerBottom := p.y + p.height
  let expandedLeft := s.x - distance
  let expandedRight := s.x + s.width + distance
  let expandedTop := s.y - distance
  let expandedBottom := s.y + s.height + distance
  ¬(playerLeft ≥ expandedRight ∨ playerRight ≤ expandedLeft ∨
    playerTop ≥ expandedBottom ∨ playerBottom ≤ expandedTop)

/-- The authoritative world owned by the orchestrator.  `volumeBlocks`
is the global block list; shelf slots, the kid's carried slot and the
player's carried list hold the value copies of the aliased references
(see the header on value semantics).  `upgradeSignals` counts the
upgrade-selection interruptions pushed to the external state manager. -/
structure World where
  player : Option Player
  kids : List Kid
  volumeBlocks : List Block
  shelves : List Shelf
  gameData : GameData
  upgradeSignals : ℕ := 0

/-- The per-block body of `PlayingState.checkVolumeBlockPickup`,
threading the player, game data and upgrade-signal counter through the
`for (const volumeBlock of this.volumeBlocks)` loop. -/
def PlayingState.pickupLoop (o : MathO) (radius cx cy : ℚ) :
    List Block → Player → GameData → ℕ → List Block × Player × GameData × ℕ
  | [], p, gd, sig => ([], p, gd, sig)
  | vb :: rest, p, gd, sig =>
      if vb.isHeld || vb.isShelved then
        let r := PlayingState.pickupLoop o radius cx cy rest p gd sig
        (vb :: r.1, r.2)
      else
        let distance := o.sqrt ((vb.getCenterX - cx) ^ 2 + (vb.getCenterY - cy) ^ 2)
        if distance ≤ radius then
          let pr := p.pickupVolumeBlock vb
          if pr.1 then
            let vb1 := vb.pickup .player
            let gd1 := { gd with
              volumeBlocksCollected := gd.volumeBlocksCollected + 1 }
            let gd2 := { gd1 with chaosLevel := max 0 (gd1.chaosLevel - 1/2) }
            let ax := PlayingState.awardXPTo 5 pr.2 gd2 sig
            let r := PlayingState.pickupLoop o radius cx cy rest ax.1 ax.2.1 ax.2.2
            (vb1 :: r.1, r.2)
          else
            let r := PlayingState.pickupLoop o radius cx cy rest pr.2 gd sig
            (vb :: r.1, r.2)
        else
          let r := PlayingState.pickupLoop o radius cx cy rest p gd sig
          (vb :: r.1, r.2)

/-- `PlayingState.checkVolumeBlockPickup()`: the player picks up every
floor block within `pickupRadius * 32` pixels of their center, for each
success gaining a carried block, one collected count, a flat 0.5 chaos
reduction (floored at 0) and 5 base XP. -/
def PlayingState.checkVolumeBlockPickup (o : MathO) (w : World) : World :=
  match w.player with
  | none => w
  | some p0 =>
      let pickupRadiusPixels := p0.stats.pickupRadius * 32
      let r := PlayingState.pickupLoop o pickupRadiusPixels
        p0.getCenterX p0.getCenterY w.volumeBlocks p0 w.gameData w.upgradeSignals
      { w with volumeBlocks := r.1, player := some r.2.1,
               gameData := r.2.2.1, upgradeSignals := r.2.2.2 }

/-- The per-kid body of `PlayingState.checkVolumeBlockSnatching`.  For a
kid carrying a block within `repelRadius`, the source clears the kid's
carried reference and drop timer first, then attempts the player pickup;
only on success does it transfer the block, mark the kid fleeing, and
apply the rewards (0.75 chaos reduction, 7 base XP, one collected
count). -/
def PlayingState.snatchLoop (o : MathO) (cx cy snatchRadius : ℚ) :
    List Kid → Player → GameData → ℕ → List Kid × Player × GameData × ℕ
  | [], p, gd, sig => ([], p, gd, sig)
  | kid :: rest, p, gd, sig =>
      match kid.carriedVolumeBlock with
      | none =>
          let r := PlayingState.snatchLoop o cx cy snatchRadius rest p gd sig
          (kid :: r.1, r.2)
      | some volumeBlock =>
          let distance := o.sqrt ((kid.getCenterX - cx) ^ 2 + (kid.getCenterY - cy) ^ 2)
          if distance ≤ snatchRadius then
            let kid1 := { kid with carriedVolumeBlock := none, dropVolumeBlockTimer := 0 }
            let pr := p.pickupVolumeBlock volumeBlock
            if pr.1 then
              let kid2 := { kid1 with state := .fleeing }
              let gd1 := { gd with
                volumeBlocksCollected := gd.volumeBlocksCollected + 1 }
              let gd2 := { gd1 with chaosLevel := max 0 (gd1.chaosLevel - 3/4) }
              let ax := PlayingState.awardXPTo 7 pr.2 gd2 sig
              let r := PlayingState.snatchLoop o cx cy snatchRadius rest ax.1 ax.2.1 ax.2.2
              (kid2 :: r.1, r.2)
            else
              let r := PlayingState.snatchLoop o cx cy snatchRadius rest pr.2 gd sig
              (kid1 :: r.1, r.2)
          else
            let r := PlayingState.snatchLoop o cx cy snatchRadius rest p gd sig
            (kid :: r.1, r.2)

/-- `PlayingState.checkVolumeBlockSnatching()`: entered only when the
player has a free carry slot; snatches from every carrying kid within
`repelRadius` of the player's center. -/
def PlayingState.checkVolumeBlockSnatching (o : MathO) (w : World) : World :=
  match w.player with
  | none => w
  | some p0 =>
      if p0.carriedVolumeBlocks.length ≥ p0.stats.carrySlots then w
      else
        let r := PlayingState.snatchLoop o p0.getCenterX p0.getCenterY p0.repelRadius
          w.kids p0 w.gameData w.upgradeSignals
        { w with kids := r.1, player := some r.2.1,
                 gameData := r.2.2.1, upgradeSignals := r.2.2.2 }

/-- The per-shelf body of `PlayingState.checkVolumeBlockShelving`; the
index paired with each shelf stands for the `this` reference the shelved
block records. -/
def PlayingState.shelvingLoop (returnDistance : ℚ) :
    List (ℕ × Shelf) → Player → GameData → ℕ → List Shelf × Player × GameData × ℕ
  | [], p, gd, sig => ([], p, gd, sig)
  | (idx, shelf) :: rest, p, gd, sig =>
      if PlayingState.isPlayerNearShelf p shelf returnDistance = true ∧
         shelf.hasEmptySlots = true then
        let sv := p.shelveVolumeBlock shelf.color
        match sv.1 with
        | some volumeBlock =>
            let ar := shelf.addVolumeBlock idx volumeBlock
            if ar.1 then
              let gd1 := { gd with
                volumeBlocksShelved := gd.volumeBlocksShelved + 1 }
              let gd2 := { gd1 with chaosLevel := max 0 (gd1.chaosLevel - 1) }
              let ax := PlayingState.awardXPTo 10 sv.2 gd2 sig
              let r := PlayingState.shelvingLoop returnDistance rest ax.1 ax.2.1 ax.2.2
              (ar.2 :: r.1, r.2)
            else
              let r := PlayingState.shelvingLoop returnDistance rest sv.2 gd sig
              (ar.2 :: r.1, r.2)
        | none =>
            let r := PlayingState.shelvingLoop returnDistance rest sv.2 gd sig
            (shelf :: r.1, r.2)
      else
        let r := PlayingState.shelvingLoop returnDistance rest p gd sig
        (shelf :: r.1, r.2)

/-- `PlayingState.checkVolumeBlockShelving()`: when the player carries
blocks, each shelf within `returnRadius * 32` with empty slots receives a
matching carried block; each success gains one shelved count, a flat 1.0
chaos reduction (floored at 0) and 10 base XP. -/
def PlayingState.checkVolumeBlockShelving (w : World) : World :=
  match w.player with
  | none => w
  | some p0 =>
      if p0.carriedVolumeBlocks.length = 0 then w
      else
        let returnDistance := p0.stats.returnRadius * 32
        let r := PlayingState.shelvingLoop returnDistance
          w.shelves.enum p0 w.gameData w.upgradeSignals
        { w with shelves := r.1, player := some r.2.1,
                 gameData := r.2.2.1, upgradeSignals := r.2.2.2 }

/-- The chaos-relevant projection of one `PlayingState.update(deltaTime)`
tick: the chaos economy step followed by the pickup, snatch and shelve
interaction steps, in the source's order.  The steps of `update` elided
here (input handling, win/lose checks, entity and spawn-scheduler
updates, particle aging) never write the chaos level, so the chaos level
after a complete tick is the chaos level after this composition. -/
def PlayingState.updateCore (o : MathO) (w : World) (dt : ℚ) : World :=
  let w1 := { w with
    gameData := PlayingState.updateChaos w.volumeBlocks w.player w.gameData dt }
  let w2 := PlayingState.checkVolumeBlockPickup o w1
  let w3 := PlayingState.checkVolumeBlockSnatching o w2
  PlayingState.checkVolumeBlockShelving w3

/-! ## Concrete fixtures used by scenario conjuncts and witnesses -/

/-- A fresh red block on the floor. -/
def redBlockC : Block :=
  { x := 0, y := 0, vx := 0, vy := 0, width := 24, height := 24,
    color := "red", isHeld := false, isShelved := false,
    holder := none, shelfRef := none, visible := true }

/-- An empty capacity-6 red shelf. -/
def redShelfC : Shelf :=
  { x := 0, y := 0, color := "red", capacity := 6,
    volumeBlocks := List.replicate 6 none }

/-- Repeatedly add the same block `n` times to a shelf, conjoining the
success flags (the driver of Scenario A). -/
def addRepeat (idx : ℕ) (b : Block) : ℕ → Shelf → Bool × Shelf
  | 0, s => (true, s)
  | n + 1, s =>
      let r := addRepeat idx b n s
      let r2 := r.2.addVolumeBlock idx b
      (r.1 && r2.1, r2.2)

/-! ## Shelf capacity and color gating (claim C3) -/

theorem Shelf.firstFree_spec (s : Shelf)
    (hlen : s.volumeBlocks.length = s.capacity)
    (h : s.hasEmptySlots = true) :
    s.firstFreeFrom s.capacity 0 < s.capacity ∧
    s.slotAt (s.firstFreeFrom s.capacity 0) = none := by
  have hlt : s.firstFreeFrom s.capacity 0 < s.capacity := by
    by_contra hge
    push_neg at hge
    have hall : ∀ m, m < s.capacity → (s.slotAt m).isSome := fun m hm =>
      s.firstFreeFrom_occupied_before s.capacity 0 m (Nat.zero_le m)
        (lt_of_lt_of_le hm hge)
    have hfill : s.volumeBlocks.filter Option.isSome = s.volumeBlocks := by
      rw [List.filter_eq_self]
      intro a ha
      obtain ⟨i, hi, rfl⟩ := List.mem_iff_getElem.mp ha
      have h2 := hall i (by omega)
      rwa [Shelf.slotAt, List.getD_eq_getElem s.volumeBlocks none hi] at h2
    have hcount : (s.volumeBlocks.filter Option.isSome).length = s.capacity := by
      rw [hfill, hlen]
    simp [Shelf.hasEmptySlots, hcount] at h
  refine ⟨hlt, ?_⟩
  rcases s.firstFreeFrom_stops s.capacity 0 (by omega) with hge | hnone
  · omega
  · exact hnone

/-- C3: `Shelf.addVolumeBlock` succeeds exactly when an empty slot exists
and the colors match; on success it writes the shelved block (Shelved,
owning reference to this shelf, not Held) into the lowest-index empty
slot; on failure it returns false and leaves the shelf unchanged; and in
Scenario A an empty capacity-6 red shelf accepts 6 red blocks (then has
no empty slots) and rejects a 7th with the occupied count still 6. -/
theorem claim_C3 (s : Shelf) (b : Block) (idx : ℕ)
    (hlen : s.volumeBlocks.length = s.capacity) :
    (((s.addVolumeBlock idx b).1 = true) ↔
        (s.hasEmptySlots = true ∧ b.color = s.color)) ∧
    ((s.addVolumeBlock idx b).1 = true →
        s.firstFreeFrom s.capacity 0 < s.capacity ∧
        s.slotAt (s.firstFreeFrom s.capacity 0) = none ∧
        (∀ m, m < s.firstFreeFrom s.capacity 0 → (s.slotAt m).isSome) ∧
        (s.addVolumeBlock idx b).2.volumeBlocks =
          s.volumeBlocks.set (s.firstFreeFrom s.capacity 0) (some (b.shelve idx)) ∧
        (b.shelve idx).isShelved = true ∧ (b.shelve idx).isHeld = false ∧
        (b.shelve idx).shelfRef = some idx) ∧
    ((s.addVolumeBlock idx b).1 = false → (s.addVolumeBlock idx b).2 = s) ∧
    ((addRepeat 0 redBlockC 6 redShelfC).1 = true ∧
      (addRepeat 0 redBlockC 6 redShelfC).2.hasEmptySlots = false ∧
      ((addRepeat 0 redBlockC 6 redShelfC).2.addVolumeBlock 0 redBlockC).1 = false ∧
      (((addRepeat 0 redBlockC 6 redShelfC).2.addVolumeBlock 0 redBlockC).2.volumeBlocks.filter
          Option.isSome).length = 6) := by
  refine ⟨?_, ?_, ?_, by decide⟩
  · constructor
    · intro htrue
      by_contra hnot
      have hguard : ¬(s.hasEmptySlots = true) ∨ b.color ≠ s.color := by
        by_cases h1 : s.hasEmptySlots = true
        · by_cases h2 : b.color = s.color
          · exact absurd ⟨h1, h2⟩ hnot
          · exact Or.inr h2
        · exact Or.inl h1
      simp only [Shelf.addVolumeBlock, if_pos hguard] at htrue
      simp at htrue
    · rintro ⟨h1, h2⟩
      have hff := s.firstFree_spec hlen h1
      have hguard : ¬(¬(s.hasEmptySlots = true) ∨ b.color ≠ s.color) := by
        push_neg
        exact ⟨h1, h2⟩
      simp only [Shelf.addVolumeBlock, if_neg hguard, if_pos hff.1]
  · intro htrue
    have hmem : s.hasEmptySlots = true ∧ b.color = s.color := by
      by_contra hnot
      have hguard : ¬(s.hasEmptySlots = true) ∨ b.color ≠ s.color := by
        by_cases h1 : s.hasEmptySlots = true
        · by_cases h2 : b.color = s.color
          · exact absurd ⟨h1, h2⟩ hnot
          · exact Or.inr h2
        · exact Or.inl h1
      simp only [Shelf.addVolumeBlock, if_pos hguard] at htrue
      simp at htrue
    have hff := s.firstFree_spec hlen hmem.1
    have hguard : ¬(¬(s.hasEmptySlots = true) ∨ b.color ≠ s.color) := by
      push_neg
      exact hmem
    refine ⟨hff.1, hff.2, ?_, ?_, rfl, rfl, rfl⟩
    · intro m hm
      exact s.firstFreeFrom_occupied_before s.capacity 0 m (Nat.zero_le m) hm
    · simp only [Shelf.addVolumeBlock, if_neg hguard, if_pos hff.1]
  · intro hfalse
    by_cases hguard : ¬(s.hasEmptySlots = true) ∨ b.color ≠ s.color
    · simp only [Shelf.addVolumeBlock, if_pos hguard]
    · by_cases hj : s.firstFreeFrom s.capacity 0 < s.capacity
      · simp only [Shelf.addVolumeBlock, if_neg hguard, if_pos hj] at hfalse
        simp at hfalse
      · simp only [Shelf.addVolumeBlock, if_neg hguard, if_neg hj]

/-- Witness for C3 at the Scenario A shelf. -/
theorem claim_C3_witness :
    redShelfC.volumeBlocks.length = redShelfC.capacity ∧
    (((redShelfC.addVolumeBlock 0 redBlockC).1 = true) ↔
      (redShelfC.hasEmptySlots = true ∧ redBlockC.color = redShelfC.color)) :=
  ⟨by decide, (claim_C3 redShelfC redBlockC 0 (by decide)).1⟩

/-! ## The chaos economy (claim C2) -/

/-- C2: one `PlayingState.updateChaos` tick — with `chaosSource > 0`
(`chaosSource` = blocks on floor + blocks held by a kid), chaos moves to
the clamp of `chaos + chaosSource · rate · dt · (1 - dampening/100)` with
the time-tiered rate (0.05, 0.03, 0.01 per second), in particular growing
by exactly that increment whenever the clamp is inactive and never
decaying; with `chaosSource = 0` and positive chaos, it moves to the
clamp of the flat `0.1/s` decay; with `chaosSource = 0` and non-positive
chaos, only the clamp applies. -/
theorem claim_C2 (blocks : List Block) (pl : Option Player) (gd : GameData) (dt : ℚ) :
    let src := (blocks.filter fun vb => !vb.isHeld && !vb.isShelved).length +
      (blocks.filter fun vb => vb.isHeld && holderIsKid vb.holder).length
    let rate : ℚ := if gd.elapsedTime / 60 < 3 then 1/20
      else if gd.elapsedTime / 60 < 5 then 3/100 else 1/100
    let damp : ℚ := match pl with
      | some p => p.stats.chaosDampening
      | none => 0
    let inc := (src : ℚ) * rate * dt * (1 - damp / 100)
    let c' := (PlayingState.updateChaos blocks pl gd dt).chaosLevel
    (src > 0 → c' = max 0 (min gd.maxChaos (gd.chaosLevel + inc))) ∧
    (src > 0 → 0 ≤ gd.chaosLevel + inc → gd.chaosLevel + inc ≤ gd.maxChaos →
      c' = gd.chaosLevel + inc) ∧
    (src = 0 → gd.chaosLevel > 0 →
      c' = max 0 (min gd.maxChaos (gd.chaosLevel - (1/10) * dt))) ∧
    (src = 0 → ¬(gd.chaosLevel > 0) →
      c' = max 0 (min gd.maxChaos gd.chaosLevel)) := by
  intro src rate damp inc c'
  have hmain : ∀ h1 : src > 0,
      c' = max 0 (min gd.maxChaos (gd.chaosLevel + inc)) := by
    intro h1
    show (PlayingState.updateChaos blocks pl gd dt).chaosLevel = _
    unfold PlayingState.updateChaos
    simp only
    rw [if_pos h1]
    have hnodecay : ¬(({ gd with chaosLevel := gd.chaosLevel +
        (src : ℚ) * (if gd.elapsedTime / 60 < 3 then (1:ℚ)/20
          else if gd.elapsedTime / 60 < 5 then 3/100 else 1/100) * dt *
          (1 - damp / 100) } : GameData).chaosLevel > 0 ∧ src = 0) := by
      rintro ⟨-, h0⟩
      omega
    rw [if_neg hnodecay]
  refine ⟨hmain, ?_, ?_, ?_⟩
  · intro h1 h2 h3
    rw [hmain h1, min_eq_right h3, max_eq_right h2]
  · intro h0 hpos
    show (PlayingState.updateChaos blocks pl gd dt).chaosLevel = _
    unfold PlayingState.updateChaos
    simp only
    rw [if_neg (by omega : ¬ src > 0), if_pos ⟨hpos, h0⟩]
  · intro h0 hnpos
    show (PlayingState.updateChaos blocks pl gd dt).chaosLevel = _
    unfold PlayingState.updateChaos
    simp only
    rw [if_neg (by omega : ¬ src > 0), if_neg (by tauto)]

/-- Game data of the Scenario B tick: chaos 10, one elapsed minute. -/
def gdB : GameData :=
  { chaosLevel := 10, maxChaos := 100, playerLevel := 1, xp := 0,
    xpToNext := 100, elapsedTime := 60, targetTime := 1800,
    volumeBlocksCollected := 0, volumeBlocksShelved := 0, kidsRepelled := 0 }

/-- Witness for C2: Scenario B's accrual (source 4, minute 1, no
dampening, `dt = 1/60`: chaos grows by `4 · 0.05 / 60 = 1/300`) and a
decay step with no source (chaos falls by `0.1/60 = 1/600`). -/
theorem claim_C2_witness :
    ((List.filter (fun vb => !vb.isHeld && !vb.isShelved)
        (List.replicate 4 redBlockC)).length +
      (List.filter (fun vb => vb.isHeld && holderIsKid vb.holder)
        (List.replicate 4 redBlockC)).length > 0) ∧
    (PlayingState.updateChaos (List.replicate 4 redBlockC) none gdB
      (1/60)).chaosLevel = 10 + 1/300 ∧
    (PlayingState.updateChaos [] none gdB (1/60)).chaosLevel = 10 - 1/600 := by
  refine ⟨by decide, ?_, ?_⟩
  · have h := (claim_C2 (List.replicate 4 redBlockC) none gdB (1/60)).1
      (by decide)
    have ha : (List.filter (fun vb => !vb.isHeld && !vb.isShelved)
        (List.replicate 4 redBlockC)).length = 4 := by decide
    have hb : (List.filter (fun vb => vb.isHeld && holderIsKid vb.holder)
        (List.replicate 4 redBlockC)).length = 0 := by decide
    rw [h, ha, hb]
    norm_num [gdB]
  · have h := (claim_C2 [] none gdB (1/60)).2.2.1 (by decide)
      (by norm_num [gdB])
    rw [h]
    norm_num [gdB]

/-! ## The wave/spawn scheduler (claim C5) -/

theorem PlayingState.waveCapStep_fields (minutes : ℚ) (st : SpawnState) :
    (PlayingState.waveCapStep minutes st).maxKids =
      max st.maxKids (PlayingState.maxKidsForMinutes minutes) ∧
    (PlayingState.waveCapStep minutes st).kids = st.kids ∧
    (PlayingState.waveCapStep minutes st).kidSpawnTimer = st.kidSpawnTimer := by
  unfold PlayingState.waveCapStep
  by_cases h : PlayingState.maxKidsForMinutes minutes > st.maxKids
  · rw [if_pos h]
    refine ⟨?_, rfl, rfl⟩
    show PlayingState.maxKidsForMinutes minutes =
      max st.maxKids (PlayingState.maxKidsForMinutes minutes)
    exact (max_eq_right (by omega)).symm
  · rw [if_neg h]
    exact ⟨(max_eq_left (by omega)).symm, rfl, rfl⟩

theorem PlayingState.notifStep_fields (st : SpawnState) (dt : ℚ) :
    (PlayingState.notifStep st dt).maxKids = st.maxKids ∧
    (PlayingState.notifStep st dt).kids = st.kids ∧
    (PlayingState.notifStep st dt).kidSpawnTimer = st.kidSpawnTimer := by
  unfold PlayingState.notifStep
  by_cases h : st.notifActive = true
  · by_cases h2 : st.notifTimer + dt ≥ st.notifDuration
    · simp [h, h2]
    · simp [h, h2]
  · simp [h]

/-- C5: one `PlayingState.updateKidSpawning` tick — the cap becomes the
step function of elapsed minutes (3 → 5 → 7 → 10, then +2 per additional
minute past 10), never decreasing; the kid list either stays or gains
exactly the one spawned kid, and it grows exactly when the count is
below the (possibly just-raised) cap and the spawn timer expires — a
rising cap edge alone never spawns; a spawn resets the recurring
15-second timer, uses one of the eight spawn points, and carries the
aggression tier 1 / 2 / 3 for elapsed minutes `<5` / `[5,10)` / `≥10`. -/
theorem claim_C5 (spawnR : ℕ) (dirDraw : ℚ) (nextKidId : ℕ) (elapsed : ℚ)
    (st : SpawnState) (dt : ℚ) :
    let m := elapsed / 60
    let st' := PlayingState.updateKidSpawning spawnR dirDraw nextKidId elapsed st dt
    let sp := PlayingState.spawnPoints.getD
      (spawnR % PlayingState.spawnPoints.length) (0, 0)
    (st'.maxKids = max st.maxKids (PlayingState.maxKidsForMinutes m)) ∧
    (st.maxKids ≤ st'.maxKids) ∧
    ((m < 1 → PlayingState.maxKidsForMinutes m = 3) ∧
     (1 ≤ m → m < 3 → PlayingState.maxKidsForMinutes m = 5) ∧
     (3 ≤ m → m < 5 → PlayingState.maxKidsForMinutes m = 7) ∧
     (5 ≤ m → m < 10 → PlayingState.maxKidsForMinutes m = 10) ∧
     (10 ≤ m → PlayingState.maxKidsForMinutes m =
        10 + (Int.floor (m - 10)).toNat * 2)) ∧
    (st'.kids = st.kids ∨
      st'.kids = st.kids ++ [Kid.init nextKidId sp.1 sp.2
        (PlayingState.aggressionForMinutes m) dirDraw]) ∧
    ((st'.kids ≠ st.kids) ↔
      (st.kids.length < st'.maxKids ∧ st.kidSpawnTimer - dt ≤ 0)) ∧
    (st'.kids ≠ st.kids →
      st'.kidSpawnTimer = 15 ∧ sp ∈ PlayingState.spawnPoints) ∧
    (PlayingState.aggressionForMinutes m =
      if m < 5 then 1 else if m < 10 then 2 else 3) := by
  intro m st' sp
  have hsp : sp ∈ PlayingState.spawnPoints := by
    have hlt : spawnR % PlayingState.spawnPoints.length <
        PlayingState.spawnPoints.length := Nat.mod_lt _ (by decide)
    have := List.getD_eq_getElem PlayingState.spawnPoints (0, 0) hlt
    rw [show sp = PlayingState.spawnPoints.getD
      (spawnR % PlayingState.spawnPoints.length) (0, 0) from rfl, this]
    exact List.getElem_mem hlt
  have hw := PlayingState.waveCapStep_fields m st
  have hn := PlayingState.notifStep_fields (PlayingState.waveCapStep m st) dt
  set st2 := PlayingState.notifStep (PlayingState.waveCapStep m st) dt with hst2
  have h2max : st2.maxKids = max st.maxKids (PlayingState.maxKidsForMinutes m) := by
    rw [hn.1, hw.1]
  have h2kids : st2.kids = st.kids := by rw [hn.2.1, hw.2.1]
  have h2timer : st2.kidSpawnTimer = st.kidSpawnTimer := by rw [hn.2.2, hw.2.2]
  have hst' : st' = PlayingState.spawnStep spawnR dirDraw nextKidId m st2 dt := rfl
  have hcap : ∀ hm : st2.kids.length ≥ st2.maxKids, st' = st2 := by
    intro hm
    rw [hst']
    unfold PlayingState.spawnStep
    rw [if_pos hm]
  have htiers :
      (m < 1 → PlayingState.maxKidsForMinutes m = 3) ∧
      (1 ≤ m → m < 3 → PlayingState.maxKidsForMinutes m = 5) ∧
      (3 ≤ m → m < 5 → PlayingState.maxKidsForMinutes m = 7) ∧
      (5 ≤ m → m < 10 → PlayingState.maxKidsForMinutes m = 10) ∧
      (10 ≤ m → PlayingState.maxKidsForMinutes m =
        10 + (Int.floor (m - 10)).toNat * 2) := by
    unfold PlayingState.maxKidsForMinutes
    refine ⟨fun h => by simp [h], fun h1 h2 => ?_, fun h1 h2 => ?_,
      fun h1 h2 => ?_, fun h1 => ?_⟩
    · rw [if_neg (by linarith), if_pos h2]
    · rw [if_neg (by linarith), if_neg (by linarith), if_pos h2]
    · rw [if_neg (by linarith), if_neg (by linarith), if_neg (by linarith),
        if_pos h2]
    · rw [if_neg (by linarith), if_neg (by linarith), if_neg (by linarith),
        if_neg (by linarith)]
  have haggr : PlayingState.aggressionForMinutes m =
      if m < 5 then 1 else if m < 10 then 2 else 3 := by
    unfold PlayingState.aggressionForMinutes
    by_cases h5 : m < 5
    · rw [if_neg (by linarith), if_neg (by linarith), if_neg (by linarith),
        if_pos h5]
    · by_cases h10 : m < 10
      · rw [if_neg (by linarith), if_neg (by linarith),
          if_pos (by linarith : m ≥ 5), if_neg h5, if_pos h10]
      · by_cases h15 : m ≥ 15
        · rw [if_pos h15, if_neg h5, if_neg h10]
        · rw [if_neg h15, if_pos (by linarith : m ≥ 10), if_neg h5, if_neg h10]
  by_cases hfull : st2.kids.length ≥ st2.maxKids
  · have he := hcap hfull
    refine ⟨by rw [he, h2max], by rw [he, h2max]; omega, htiers, ?_, ?_, ?_, haggr⟩
    · left; rw [he, h2kids]
    · rw [he, h2kids]
      constructor
      · intro h; exact absurd rfl h
      · rintro ⟨hlt, -⟩
        rw [h2kids] at hfull
        exact absurd hlt (by omega)
    · intro h
      rw [he, h2kids] at h
      exact absurd rfl h
  · push_neg at hfull
    by_cases htim : st2.kidSpawnTimer - dt ≤ 0
    · have he : st' = { st2 with
          kids := st2.kids ++ [Kid.init nextKidId sp.1 sp.2
            (PlayingState.aggressionForMinutes m) dirDraw],
          kidSpawnTimer := 15, kidSpawnInterval := 15 } := by
        rw [hst']
        unfold PlayingState.spawnStep
        rw [if_neg (by omega), if_pos htim]
      refine ⟨by rw [he]; exact h2max, by rw [he]; rw [show ({ st2 with
          kids := st2.kids ++ [Kid.init nextKidId sp.1 sp.2
            (PlayingState.aggressionForMinutes m) dirDraw],
          kidSpawnTimer := 15, kidSpawnInterval := 15 } : SpawnState).maxKids
          = st2.maxKids from rfl, h2max]; omega,
        htiers, ?_, ?_, ?_, haggr⟩
      · right; rw [he]; show st2.kids ++ _ = st.kids ++ _; rw [h2kids]
      · constructor
        · intro _
          refine ⟨?_, by rw [h2timer] at htim; exact htim⟩
          rw [he, h2max]
          show st.kids.length < max st.maxKids (PlayingState.maxKidsForMinutes m)
          rw [h2kids, h2max] at hfull
          exact hfull
        · intro _
          rw [he]
          show st2.kids ++ _ ≠ st.kids
          rw [h2kids]
          intro hcon
          have := congrArg List.length hcon
          simp at this
      · intro _
        exact ⟨by rw [he], hsp⟩
    · have he : st' = { st2 with kidSpawnTimer := st2.kidSpawnTimer - dt } := by
        rw [hst']
        unfold PlayingState.spawnStep
        rw [if_neg (by omega), if_neg htim]
      refine ⟨by rw [he]; exact h2max, by rw [he]; rw [show ({ st2 with
          kidSpawnTimer := st2.kidSpawnTimer - dt } : SpawnState).maxKids
          = st2.maxKids from rfl, h2max]; omega,
        htiers, ?_, ?_, ?_, haggr⟩
      · left; rw [he]; exact h2kids
      · constructor
        · intro h
          rw [he] at h
          exact absurd h2kids h
        · rintro ⟨-, ht⟩
          rw [h2timer] at htim
          exact absurd ht htim
      · intro h
        rw [he] at h
        exact absurd h2kids h

/-- Witness for C5: a concrete tick at minute 4 with a full population
(cap 7, no spawn), exercising the cap equation. -/
theorem claim_C5_witness :
    (PlayingState.updateKidSpawning 0 0 9 240
      { maxKids := 5, kidSpawnTimer := 15, kidSpawnInterval := 15,
        kids := [] } (1/60)).maxKids = max 5 (PlayingState.maxKidsForMinutes 4) ∧
    PlayingState.maxKidsForMinutes (240 / 60 : ℚ) = 7 := by
  constructor
  · have h := (claim_C5 0 0 9 240
      { maxKids := 5, kidSpawnTimer := 15, kidSpawnInterval := 15,
        kids := [] } (1/60)).1
    rw [h]
    norm_num
  · exact (claim_C5 0 0 9 240
      { maxKids := 5, kidSpawnTimer := 15, kidSpawnInterval := 15,
        kids := [] } (1/60)).2.2.1.2.2.1 (by norm_num) (by norm_num)

/-! ## XP and leveling (claim C6) -/

theorem xpReq_ge_100 (l : ℕ) : 100 ≤ xpReq l := by
  unfold xpReq
  have h20 : 0 < 20 ^ (l - 1) := pow_pos (by norm_num) _
  rw [Nat.le_div_iff_mul_le h20]
  have := Nat.pow_le_pow_left (show 20 ≤ 29 by norm_num) (l - 1)
  calc 100 * 20 ^ (l - 1) ≤ 100 * 29 ^ (l - 1) := Nat.mul_le_mul_left _ this
    _ = 100 * 29 ^ (l - 1) := rfl

theorem xpReq_floor (l : ℕ) :
    xpReq l = Nat.floor ((100 : ℚ) * (29/20 : ℚ) ^ (l - 1)) := by
  unfold xpReq
  have h : ((100 : ℚ) * (29/20 : ℚ) ^ (l - 1)) =
      ((100 * 29 ^ (l - 1) : ℕ) : ℚ) / ((20 ^ (l - 1) : ℕ) : ℚ) := by
    rw [div_pow]
    push_cast
    ring
  rw [h, Nat.floor_div_nat, Nat.floor_natCast]

/-- The defining unfolding of one `levelLoop` iteration. -/
theorem PlayingState.levelLoop_succ (fuel xp lvl next : ℕ) :
    PlayingState.levelLoop (fuel + 1) xp lvl next =
      if next ≤ xp then
        let r := PlayingState.levelLoop fuel (xp - next) (lvl + 1) (xpReq (lvl + 1))
        (r.1, r.2.1, r.2.2.1, r.2.2.2 + 1)
      else (xp, lvl, next, 0) := rfl

/-- The loop raises the level by exactly the number of gained levels. -/
theorem PlayingState.levelLoop_level (fuel : ℕ) :
    ∀ xp lvl next, (PlayingState.levelLoop fuel xp lvl next).2.1 =
      lvl + (PlayingState.levelLoop fuel xp lvl next).2.2.2 := by
  induction fuel with
  | zero => intro xp lvl next; simp [PlayingState.levelLoop]
  | succ n ih =>
      intro xp lvl next
      rw [PlayingState.levelLoop_succ]
      by_cases h : next ≤ xp
      · rw [if_pos h]
        have := ih (xp - next) (lvl + 1) (xpReq (lvl + 1))
        simp only []
        omega
      · rw [if_neg h]
        simp

/-- The loop maintains the level-requirement formula: when entered with
`next = xpReq lvl`, it exits with `next = xpReq` of the exit level. -/
theorem PlayingState.levelLoop_next (fuel : ℕ) :
    ∀ xp lvl next, next = xpReq lvl →
      (PlayingState.levelLoop fuel xp lvl next).2.2.1 =
        xpReq ((PlayingState.levelLoop fuel xp lvl next).2.1) := by
  induction fuel with
  | zero => intro xp lvl next h; simpa [PlayingState.levelLoop] using h
  | succ n ih =>
      intro xp lvl next h
      rw [PlayingState.levelLoop_succ]
      by_cases hle : next ≤ xp
      · rw [if_pos hle]
        exact ih (xp - next) (lvl + 1) (xpReq (lvl + 1)) rfl
      · rw [if_neg hle]
        exact h

/-- With positive requirements and enough fuel, the loop runs to
completion: the final XP is below the final requirement. -/
theorem PlayingState.levelLoop_total (fuel : ℕ) :
    ∀ xp lvl next, xp < fuel → 1 ≤ next →
      (PlayingState.levelLoop fuel xp lvl next).1 <
        (PlayingState.levelLoop fuel xp lvl next).2.2.1 := by
  induction fuel with
  | zero => intro xp lvl next h; omega
  | succ n ih =>
      intro xp lvl next hfuel hnext
      rw [PlayingState.levelLoop_succ]
      by_cases hle : next ≤ xp
      · rw [if_pos hle]
        exact ih (xp - next) (lvl + 1) (xpReq (lvl + 1)) (by omega)
          (le_trans (by norm_num) (xpReq_ge_100 (lvl + 1)))
      · rw [if_neg hle]
        show xp < next
        omega

/-- `awardXP` characterised with the claim's multiplier grouping:
`floor(base × multiplier × boost)` granted, then the level-up loop with
one stamina refill and one counted upgrade interruption per level. -/
theorem PlayingState.awardXP_eq (amount : ℕ) (player : Option Player)
    (gd : GameData) (sig : ℕ) :
    PlayingState.awardXP amount player gd sig =
      (let base : ℚ := match player with
        | some p => p.getXPMultiplier
        | none => 1
       let mult := if base = 0 then 1 else base
       let boost : ℚ := if gd.elapsedTime < 120 then 3/2 else 1
       let granted := (Int.floor ((amount : ℚ) * mult * boost)).toNat
       let L := PlayingState.levelLoop (gd.xp + granted + 1) (gd.xp + granted)
         gd.playerLevel gd.xpToNext
       ((if 0 < L.2.2.2 then
           player.map fun p =>
             { p with stats := { p.stats with stamina := p.stats.maxStamina } }
         else player),
        { gd with xp := L.1, playerLevel := L.2.1, xpToNext := L.2.2.1 },
        sig + L.2.2.2)) := by
  by_cases h : gd.elapsedTime < 120
  · simp only [PlayingState.awardXP, if_pos h, mul_assoc]
  · simp only [PlayingState.awardXP, if_neg h, mul_one]

/-- `awardXP` touches only the XP, level and requirement fields of the
game data. -/
theorem PlayingState.awardXP_preserves (amount : ℕ) (player : Option Player)
    (gd : GameData) (sig : ℕ) :
    (PlayingState.awardXP amount player gd sig).2.1.chaosLevel = gd.chaosLevel ∧
    (PlayingState.awardXP amount player gd sig).2.1.maxChaos = gd.maxChaos ∧
    (PlayingState.awardXP amount player gd sig).2.1.kidsRepelled = gd.kidsRepelled ∧
    (PlayingState.awardXP amount player gd sig).2.1.elapsedTime = gd.elapsedTime :=
  ⟨rfl, rfl, rfl, rfl⟩

/-- C6: XP awards grant `floor(base × multiplier × boost)` with the 1.5×
boost before two minutes; the level-up loop supports multiple level-ups
per award, keeps each level's requirement at
`floor(100 × 1.45^(level-1))`, refills stamina, and signals one
upgrade-selection interruption per level gained; and in Scenario E
(XP 95, requirement 100, effective award 10) exactly one level-up occurs
leaving XP 5 and requirement `floor(100 × 1.45^oldLevel)`. -/
theorem claim_C6 :
    (∀ (amount : ℕ) (player : Option Player) (gd : GameData) (sig : ℕ),
      PlayingState.awardXP amount player gd sig =
        (let base : ℚ := match player with
          | some p => p.getXPMultiplier
          | none => 1
         let mult := if base = 0 then 1 else base
         let boost : ℚ := if gd.elapsedTime < 120 then 3/2 else 1
         let granted := (Int.floor ((amount : ℚ) * mult * boost)).toNat
         let L := PlayingState.levelLoop (gd.xp + granted + 1) (gd.xp + granted)
           gd.playerLevel gd.xpToNext
         ((if 0 < L.2.2.2 then
             player.map fun p =>
               { p with stats := { p.stats with stamina := p.stats.maxStamina } }
           else player),
          { gd with xp := L.1, playerLevel := L.2.1, xpToNext := L.2.2.1 },
          sig + L.2.2.2))) ∧
    (∀ l, xpReq l = Nat.floor ((100 : ℚ) * (29/20 : ℚ) ^ (l - 1))) ∧
    (∀ fuel xp lvl next, (PlayingState.levelLoop fuel xp lvl next).2.1 =
      lvl + (PlayingState.levelLoop fuel xp lvl next).2.2.2) ∧
    (∀ fuel xp lvl next, next = xpReq lvl →
      (PlayingState.levelLoop fuel xp lvl next).2.2.1 =
        xpReq ((PlayingState.levelLoop fuel xp lvl next).2.1)) ∧
    (∀ fuel xp lvl next, xp < fuel → 1 ≤ next →
      (PlayingState.levelLoop fuel xp lvl next).1 <
        (PlayingState.levelLoop fuel xp lvl next).2.2.1) ∧
    (PlayingState.levelLoop 251 250 1 100 = (5, 3, 210, 2)) ∧
    (∀ (L : ℕ) (gd : GameData) (sig : ℕ),
      gd.xp = 95 → gd.xpToNext = 100 → gd.playerLevel = L →
      ¬(gd.elapsedTime < 120) →
      (PlayingState.awardXP 10 none gd sig).2.1.xp = 5 ∧
      (PlayingState.awardXP 10 none gd sig).2.1.playerLevel = L + 1 ∧
      (PlayingState.awardXP 10 none gd sig).2.1.xpToNext = xpReq (L + 1) ∧
      (PlayingState.awardXP 10 none gd sig).2.2 = sig + 1) := by
  refine ⟨PlayingState.awardXP_eq, xpReq_floor,
    fun fuel => PlayingState.levelLoop_level fuel,
    fun fuel => PlayingState.levelLoop_next fuel,
    fun fuel => PlayingState.levelLoop_total fuel,
    by decide, ?_⟩
  intro L gd sig h95 h100 hL hel
  have hinner : PlayingState.levelLoop 105 5 (L + 1) (xpReq (L + 1)) =
      (5, L + 1, xpReq (L + 1), 0) := by
    rw [show (105 : ℕ) = 104 + 1 from rfl, PlayingState.levelLoop_succ,
      if_neg (by have := xpReq_ge_100 (L + 1); omega)]
  have hloop : PlayingState.levelLoop 106 105 L 100 = (5, L + 1, xpReq (L + 1), 1) := by
    rw [show (106 : ℕ) = 105 + 1 from rfl, PlayingState.levelLoop_succ,
      if_pos (by norm_num : (100 : ℕ) ≤ 105)]
    simp only [show (105 : ℕ) - 100 = 5 from rfl, hinner]
  have he := PlayingState.awardXP_eq 10 none gd sig
  rw [he]
  simp only [h95, h100, hL, if_neg hel]
  norm_num
  rw [show Int.toNat 10 = 10 from rfl, show (95 : ℕ) + 10 + 1 = 106 from rfl,
    show (95 : ℕ) + 10 = 105 from rfl, hloop]
  exact ⟨rfl, rfl, rfl, rfl⟩

/-- Witness for C6: Scenario E at level 1. -/
theorem claim_C6_witness :
    (PlayingState.awardXP 10 none
      { chaosLevel := 0, maxChaos := 100, playerLevel := 1, xp := 95,
        xpToNext := 100, elapsedTime := 200, targetTime := 1800,
        volumeBlocksCollected := 0, volumeBlocksShelved := 0,
        kidsRepelled := 0 } 0).2.1.xp = 5 ∧
    (PlayingState.awardXP 10 none
      { chaosLevel := 0, maxChaos := 100, playerLevel := 1, xp := 95,
        xpToNext := 100, elapsedTime := 200, targetTime := 1800,
        volumeBlocksCollected := 0, volumeBlocksShelved := 0,
        kidsRepelled := 0 } 0).2.1.xpToNext = xpReq 2 := by
  have h := claim_C6.2.2.2.2.2.2 1
    { chaosLevel := 0, maxChaos := 100, playerLevel := 1, xp := 95,
      xpToNext := 100, elapsedTime := 200, targetTime := 1800,
      volumeBlocksCollected := 0, volumeBlocksShelved := 0,
      kidsRepelled := 0 } 0 rfl rfl rfl (by norm_num)
  exact ⟨h.1, h.2.2.1⟩

/-! ## The theft resolution (claim C1) -/

/-- `Kid.updateStealing`, reduced at the grab moment: with a target, not
carrying, the player not near, the agent within the 5-pixel shelf
proximity and the grab delay elapsed, the step is exactly the random
removal followed by the 50/50 branch — and in both the floor-drop and
the carry branch the agent transitions to Fleeing. -/
theorem Kid.updateStealing_grab (o : MathO) (dr : StealDraws) (st : WorldView)
    (k : Kid) (gd : GameData) (dt : ℚ) (tgt : Shelf)
    (htgt : k.target = some tgt) (hcar : k.carriedVolumeBlock = none)
    (hclose : k.playerTooClose o st = false)
    (hnear : k.isNearShelf tgt 5 = true)
    (hgrab : (if k.grabDelay ≤ 0 then k.grabDelayTime else k.grabDelay) - dt ≤ 0) :
    k.updateStealing o dr st gd dt =
      match (tgt.removeRandomVolumeBlock dr.slotR).1 with
      | some volumeBlock =>
          if dr.coinR < 1/2 then
            ({ k with volumeBlockStealCooldown := k.volumeBlockStealCooldownTime,
                      state := .fleeing, target := none, grabDelay := 0 },
             gd, some (tgt.removeRandomVolumeBlock dr.slotR).2,
             some { volumeBlock with
               x := tgt.getCenterX + o.cos (dr.dropAngleR * o.pi * 2) *
                     (dr.dropDistR * 150) - volumeBlock.width / 2,
               y := tgt.getCenterY + o.sin (dr.dropAngleR * o.pi * 2) *
                     (dr.dropDistR * 150) - volumeBlock.height / 2,
               vx := (dr.dropVelXr - 1/2) * 60,
               vy := (dr.dropVelYr - 1/2) * 60,
               visible := true })
          else
            ({ k with carriedVolumeBlock := some { volumeBlock with
                        isHeld := true, holder := some (.kid k.kidId),
                        visible := true },
                      volumeBlockStealCooldown := k.volumeBlockStealCooldownTime,
                      state := .fleeing, target := none, grabDelay := 0 },
             gd, some (tgt.removeRandomVolumeBlock dr.slotR).2, none)
      | none =>
          ({ k with state := .wandering, volumeBlockStealCooldown := 1,
                    target := none, grabDelay := 0 },
           gd, some (tgt.removeRandomVolumeBlock dr.slotR).2, none) := by
  unfold Kid.updateStealing
  rw [htgt]
  simp only [hcar, hclose, hnear, Option.isSome_none, Bool.false_eq_true,
    if_false, not_true, if_pos hgrab]

/-- C1 (amended): at the grab moment, a uniformly random occupied slot's
block is removed (the selected index is an occupied one, and every
occupied index is selected by some draw); with probability 1/2 the block
is dropped to the floor near the shelf and with probability 1/2 the
agent carries it (Held, holder = this agent) — but in both branches the
agent transitions to Fleeing with the steal cooldown set (the claim's
"stays Wandering-bound" drop outcome does not occur); an unstocked shelf
sends the agent back to Wandering with a 1-second cooldown. -/
theorem claim_C1 (o : MathO) (dr : StealDraws) (st : WorldView) (k : Kid)
    (gd : GameData) (dt : ℚ) (tgt : Shelf)
    (htgt : k.target = some tgt) (hcar : k.carriedVolumeBlock = none)
    (hclose : k.playerTooClose o st = false)
    (hnear : k.isNearShelf tgt 5 = true)
    (hgrab : (if k.grabDelay ≤ 0 then k.grabDelayTime else k.grabDelay) - dt ≤ 0) :
    let R := k.updateStealing o dr st gd dt
    let rem := tgt.removeRandomVolumeBlock dr.slotR
    let sel := tgt.occupiedIndices.getD (dr.slotR % tgt.occupiedIndices.length) 0
    (tgt.occupiedIndices ≠ [] →
      sel ∈ tgt.occupiedIndices ∧
      ∃ b, tgt.slotAt sel = some b ∧ rem.1 = some b.unshelve ∧
        rem.2 = { tgt with volumeBlocks := tgt.volumeBlocks.set sel none }) ∧
    (∀ i ∈ tgt.occupiedIndices, ∃ r2,
      tgt.occupiedIndices.getD (r2 % tgt.occupiedIndices.length) 0 = i) ∧
    (rem.1 = none →
      R.1.state = .wandering ∧ R.1.volumeBlockStealCooldown = 1 ∧
      R.1.target = none ∧ R.1.grabDelay = 0 ∧ R.2.1 = gd ∧ R.2.2.2 = none) ∧
    (∀ b0, rem.1 = some b0 → dr.coinR < 1/2 →
      R.1.state = .fleeing ∧ R.1.carriedVolumeBlock = none ∧
      R.1.volumeBlockStealCooldown = k.volumeBlockStealCooldownTime ∧
      R.1.target = none ∧ R.1.grabDelay = 0 ∧ R.2.1 = gd ∧
      R.2.2.1 = some rem.2 ∧
      R.2.2.2 = some { b0 with
        x := tgt.getCenterX + o.cos (dr.dropAngleR * o.pi * 2) *
              (dr.dropDistR * 150) - b0.width / 2,
        y := tgt.getCenterY + o.sin (dr.dropAngleR * o.pi * 2) *
              (dr.dropDistR * 150) - b0.height / 2,
        vx := (dr.dropVelXr - 1/2) * 60, vy := (dr.dropVelYr - 1/2) * 60,
        visible := true }) ∧
    (∀ b0, rem.1 = some b0 → ¬(dr.coinR < 1/2) →
      R.1.state = .fleeing ∧
      R.1.carriedVolumeBlock = some { b0 with
        isHeld := true, holder := some (.kid k.kidId), visible := true } ∧
      R.1.volumeBlockStealCooldown = k.volumeBlockStealCooldownTime ∧
      R.1.target = none ∧ R.1.grabDelay = 0 ∧ R.2.1 = gd ∧
      R.2.2.1 = some rem.2 ∧ R.2.2.2 = none) := by
  intro R rem sel
  have hR := Kid.updateStealing_grab o dr st k gd dt tgt htgt hcar hclose hnear hgrab
  refine ⟨?_, ?_, ?_, ?_, ?_⟩
  · intro hne
    have hlen : 0 < tgt.occupiedIndices.length := List.length_pos.mpr hne
    have hlt : dr.slotR % tgt.occupiedIndices.length <
        tgt.occupiedIndices.length := Nat.mod_lt _ hlen
    have hmem : sel ∈ tgt.occupiedIndices := by
      show tgt.occupiedIndices.getD _ 0 ∈ _
      rw [List.getD_eq_getElem _ _ hlt]
      exact List.getElem_mem hlt
    have hsel : sel ∈ (List.range tgt.volumeBlocks.length).filter
        (fun i => (tgt.slotAt i).isSome) := hmem
    have hsome : (tgt.slotAt sel).isSome ∧ sel < tgt.volumeBlocks.length := by
      have := List.mem_filter.mp hsel
      exact ⟨by simpa using this.2, List.mem_range.mp this.1⟩
    obtain ⟨b, hb⟩ := Option.isSome_iff_exists.mp hsome.1
    refine ⟨hmem, b, hb, ?_, ?_⟩
    · show (tgt.removeRandomVolumeBlock dr.slotR).1 = _
      unfold Shelf.removeRandomVolumeBlock
      rw [if_neg (by simpa [List.isEmpty_iff] using hne)]
      show (tgt.removeVolumeBlock sel).1 = _
      unfold Shelf.removeVolumeBlock
      simp only [hb]
      rw [if_pos hsome.2]
    · show (tgt.removeRandomVolumeBlock dr.slotR).2 = _
      unfold Shelf.removeRandomVolumeBlock
      rw [if_neg (by simpa [List.isEmpty_iff] using hne)]
      show (tgt.removeVolumeBlock sel).2 = _
      unfold Shelf.removeVolumeBlock
      simp only [hb]
      rw [if_pos hsome.2]
  · intro i hi
    obtain ⟨⟨pos, hpos⟩, hget⟩ := List.mem_iff_get.mp hi
    refine ⟨pos, ?_⟩
    rw [Nat.mod_eq_of_lt hpos, List.getD_eq_getElem _ _ hpos]
    simpa using hget
  · intro hnone
    rw [show R = k.updateStealing o dr st gd dt from rfl, hR]
    rw [show rem.1 = (tgt.removeRandomVolumeBlock dr.slotR).1 from rfl] at hnone
    rw [hnone]
    exact ⟨rfl, rfl, rfl, rfl, rfl, rfl⟩
  · intro b0 hb0 hcoin
    rw [show R = k.updateStealing o dr st gd dt from rfl, hR]
    rw [show rem.1 = (tgt.removeRandomVolumeBlock dr.slotR).1 from rfl] at hb0
    simp only [hb0]
    rw [if_pos hcoin]
    exact ⟨rfl, hcar, rfl, rfl, rfl, rfl, rfl, rfl⟩
  · intro b0 hb0 hcoin
    rw [show R = k.updateStealing o dr st gd dt from rfl, hR]
    rw [show rem.1 = (tgt.removeRandomVolumeBlock dr.slotR).1 from rfl] at hb0
    simp only [hb0]
    rw [if_neg hcoin]
    exact ⟨rfl, rfl, rfl, rfl, rfl, rfl, rfl, rfl⟩

/-- A red block sitting shelved in slot 0. -/
def shelvedRedC : Block := { redBlockC with isShelved := true, shelfRef := some 0 }

/-- A shelf stocked with exactly one block, in slot 0. -/
def stealShelfC : Shelf :=
  { x := 0, y := 0, color := "red", capacity := 6,
    volumeBlocks := [some shelvedRedC, none, none, none, none, none] }

/-- A stealing kid standing on its target shelf, grab delay ready. -/
def stealKidC : Kid :=
  { Kid.init 0 0 0 1 0 with target := some stealShelfC, state := .stealing }

/-- The world view of the theft fixture: no player, no other shelves. -/
def stealViewC : WorldView := { player := none, shelves := [] }

/-- Counterexample to C1 as stated: at a concrete grab with the coin
draw below 1/2, the block is knocked to the floor (the drop branch)
and the agent's next state is Fleeing — not the Wandering-bound outcome
the claim asserts for the drop branch. -/
theorem claim_C1_counterexample :
    (stealKidC.updateStealing MathO.triv {} stealViewC GameData.init 2).2.2.2.isSome
      = true ∧
    (stealKidC.updateStealing MathO.triv {} stealViewC GameData.init 2).1.state =
      KidState.fleeing ∧
    KidState.fleeing ≠ KidState.wandering := by
  have h := (claim_C1 MathO.triv {} stealViewC stealKidC GameData.init 2
      stealShelfC rfl rfl rfl (by norm_num [Kid.isNearShelf, stealKidC,
        stealShelfC, Kid.init])
      (by norm_num [stealKidC, Kid.init])).2.2.2.1
      shelvedRedC.unshelve rfl (by norm_num)
  refine ⟨?_, h.1, by decide⟩
  rw [h.2.2.2.2.2.2.2]
  rfl

/-- Witness for C1 at the theft fixture (drop branch). -/
theorem claim_C1_witness :
    (stealKidC.updateStealing MathO.triv {} stealViewC GameData.init 2).1.state =
      KidState.fleeing ∧
    (stealKidC.updateStealing MathO.triv {} stealViewC GameData.init
      2).1.volumeBlockStealCooldown = stealKidC.volumeBlockStealCooldownTime := by
  have h := (claim_C1 MathO.triv {} stealViewC stealKidC GameData.init 2
      stealShelfC rfl rfl rfl (by norm_num [Kid.isNearShelf, stealKidC,
        stealShelfC, Kid.init])
      (by norm_num [stealKidC, Kid.init])).2.2.2.1
      shelvedRedC.unshelve rfl (by norm_num)
  exact ⟨h.1, h.2.2.1⟩

/-! ## Flee transitions and the repelled counter (claim C8) -/

/-- `Kid.applyMovement` only writes position, velocity and heading: the
behavior state, the one-shot laugh flag, the flee timer, the carried
block, the target, the cooldown and the speed are untouched. -/
theorem Kid.applyMovement_preserves (o : MathO) (dr : MoveDraws)
    (shelves : List Shelf) (k : Kid) (dt : ℚ) :
    (k.applyMovement o dr shelves dt).state = k.state ∧
    (k.applyMovement o dr shelves dt).hasPlayedLaughSound = k.hasPlayedLaughSound ∧
    (k.applyMovement o dr shelves dt).fleeTimer = k.fleeTimer ∧
    (k.applyMovement o dr shelves dt).carriedVolumeBlock = k.carriedVolumeBlock ∧
    (k.applyMovement o dr shelves dt).target = k.target ∧
    (k.applyMovement o dr shelves dt).volumeBlockStealCooldown =
      k.volumeBlockStealCooldown ∧
    (k.applyMovement o dr shelves dt).speed = k.speed := by
  unfold Kid.applyMovement
  dsimp only
  split_ifs <;> exact ⟨rfl, rfl, rfl, rfl, rfl, rfl, rfl⟩

/-- When the agent is already Fleeing, the whole `Kid.update` step
leaves the game data (in particular the repelled counter) unchanged. -/
theorem Kid.update_fleeing_gd (o : MathO) (dr : UpdateDraws) (st : WorldView)
    (k : Kid) (gd : GameData) (dt : ℚ) (hstate : k.state = .fleeing) :
    (Kid.update o dr st k gd dt).gd = gd := by
  unfold Kid.update
  by_cases hc : k.volumeBlockStealCooldown > 0
  · simp only [if_pos hc, hstate]
  · simp only [if_neg hc, hstate]

/-- C8: an agent in Wandering (or Stealing, with a live target and empty
hands) whose distance to the player is below `playerDetectionRange`
transitions to Fleeing on its update, incrementing the global repelled
counter by exactly one and setting the one-shot alert flag; an update of
an agent already Fleeing never changes the game data (so the counter is
incremented once per flee episode, not per tick); and the alert flag is
reset when the agent leaves Fleeing, by distance (>`1.5 ×
playerDetectionRange`) or by the no-player timeout. -/
theorem claim_C8 :
    (∀ (o : MathO) (dr : WanderDraws) (st : WorldView) (k : Kid)
        (gd : GameData) (dt : ℚ),
      k.state = .wandering → k.playerTooClose o st = true →
      (k.updateWandering o dr st gd dt).1.state = .fleeing ∧
      (k.updateWandering o dr st gd dt).2.kidsRepelled = gd.kidsRepelled + 1 ∧
      (k.updateWandering o dr st gd dt).1.hasPlayedLaughSound = true) ∧
    (∀ (o : MathO) (dr : StealDraws) (st : WorldView) (k : Kid)
        (gd : GameData) (dt : ℚ) (tgt : Shelf),
      k.state = .stealing → k.target = some tgt →
      k.carriedVolumeBlock = none → k.playerTooClose o st = true →
      (k.updateStealing o dr st gd dt).1.state = .fleeing ∧
      (k.updateStealing o dr st gd dt).2.1.kidsRepelled = gd.kidsRepelled + 1 ∧
      (k.updateStealing o dr st gd dt).1.hasPlayedLaughSound = true) ∧
    (∀ (o : MathO) (dr : UpdateDraws) (st : WorldView) (k : Kid)
        (gd : GameData) (dt : ℚ),
      k.state = .fleeing → (Kid.update o dr st k gd dt).gd = gd) ∧
    (∀ (o : MathO) (dr : FleeDraws) (st : WorldView) (k : Kid) (dt : ℚ)
        (p : Player),
      st.player = some p →
      k.distanceToCenter o p.getCenterX p.getCenterY >
        k.playerDetectionRange * (3/2) →
      (k.updateFleeing o dr st dt).1.state = .wandering ∧
      (k.updateFleeing o dr st dt).1.hasPlayedLaughSound = false) ∧
    (∀ (o : MathO) (dr : FleeDraws) (st : WorldView) (k : Kid) (dt : ℚ),
      st.player = none →
      (if isFalsyTimer k.fleeTimer then (1 : ℚ) else k.fleeTimer.getD 0) - dt ≤ 0 →
      (k.updateFleeing o dr st dt).1.state = .wandering ∧
      (k.updateFleeing o dr st dt).1.hasPlayedLaughSound = false ∧
      (k.updateFleeing o dr st dt).1.fleeTimer = none) := by
  refine ⟨?_, ?_, ?_, ?_, ?_⟩
  · intro o dr st k gd dt hw hclose
    have hne : k.state ≠ KidState.fleeing := by simp [hw]
    unfold Kid.updateWandering
    simp [hclose, hne]
  · intro o dr st k gd dt tgt hw htgt hcar hclose
    have hne : k.state ≠ KidState.fleeing := by simp [hw]
    unfold Kid.updateStealing
    rw [htgt]
    simp [hcar, hclose, hne]
  · exact fun o dr st k gd dt h => Kid.update_fleeing_gd o dr st k gd dt h
  · intro o dr st k dt p hp hfar
    unfold Kid.updateFleeing
    rw [hp]
    simp [hfar]
  · intro o dr st k dt hp htime
    unfold Kid.updateFleeing
    rw [hp]
    have hpres := Kid.applyMovement_preserves o dr.mv st.shelves
      { k with vx := o.cos k.direction * k.fleeSpeed,
               vy := o.sin k.direction * k.fleeSpeed } dt
    simp only []
    rw [hpres.2.2.1]
    simp only []
    rw [if_pos htime]
    exact ⟨rfl, rfl, rfl⟩

/-- A player standing at the origin carrying nothing. -/
def playerC : Player :=
  { x := 0, y := 0, width := 32, height := 32, repelRadius := 100,
    stats := { pickupRadius := 2, returnRadius := 2, carrySlots := 5,
               stamina := 100, maxStamina := 100, chaosDampening := 0,
               xpMultiplier := 1 },
    carriedVolumeBlocks := [] }

/-- World view with the player present and no shelves. -/
def viewPC : WorldView := { player := some playerC, shelves := [] }

/-- A math oracle whose square root is constantly zero, putting every
entity within every detection radius. -/
def oZero : MathO := { MathO.triv with sqrt := fun _ => 0 }

/-- A freshly constructed wandering kid at the origin. -/
def wanderKidC : Kid := Kid.init 0 0 0 1 0

/-- Witness for C8: the wandering kid next to the player flees and the
repelled counter goes from 0 to 1. -/
theorem claim_C8_witness :
    (wanderKidC.updateWandering oZero {} viewPC GameData.init 1).1.state =
      KidState.fleeing ∧
    (wanderKidC.updateWandering oZero {} viewPC GameData.init 1).2.kidsRepelled = 1 := by
  have h := claim_C8.1 oZero {} viewPC wanderKidC GameData.init 1 rfl
    (by norm_num [Kid.playerTooClose, Kid.distanceToCenter, oZero, MathO.triv,
      viewPC, wanderKidC, Kid.init])
  exact ⟨h.1, h.2.1⟩

/-! ## Double-blocked movement (claim C9) -/

/-- C9 (amended): when both the X and Y displacements of a tick are
rejected by the shelf collision tests, a *Wandering* agent picks a
brand-new random heading and has its velocity set from that heading at
half speed; an agent in any other state merely keeps its heading and has
both velocity components damped and reflected (`v := -v · 0.3`). -/
theorem claim_C9 (o : MathO) (dr : MoveDraws) (shelves : List Shelf)
    (k : Kid) (dt : ℚ)
    (hboth : k.scanShelves (k.x + k.vx * dt) (k.y + k.vy * dt) shelves
      (true, true) = (false, false)) :
    (k.state = .wandering →
      (k.applyMovement o dr shelves dt).direction = dr.unstuckR * o.pi * 2 ∧
      (k.applyMovement o dr shelves dt).vx =
        o.cos (dr.unstuckR * o.pi * 2) * k.speed * (1/2) ∧
      (k.applyMovement o dr shelves dt).vy =
        o.sin (dr.unstuckR * o.pi * 2) * k.speed * (1/2)) ∧
    (k.state ≠ .wandering →
      (k.applyMovement o dr shelves dt).vx = -k.vx * (3/10) ∧
      (k.applyMovement o dr shelves dt).vy = -k.vy * (3/10) ∧
      (k.applyMovement o dr shelves dt).direction = k.direction) := by
  constructor
  · intro hw
    unfold Kid.applyMovement
    simp [hboth, hw]
  · intro hw
    unfold Kid.applyMovement
    simp [hboth, hw]

/-- A fleeing kid standing inside a shelf with a small velocity, so both
axes of its next move are rejected. -/
def fleeKidC : Kid := { Kid.init 1 0 0 1 1 with state := .fleeing, vx := 1, vy := 1 }

/-- Counterexample to C9 as stated: with both axes blocked, the fleeing
agent does not pick the brand-new heading at reduced speed the claim
promises for *every* behavior state — its heading is unchanged and its
velocity merely the damped reflection. -/
theorem claim_C9_counterexample :
    fleeKidC.scanShelves (fleeKidC.x + fleeKidC.vx * 1)
      (fleeKidC.y + fleeKidC.vy * 1) [redShelfC] (true, true) = (false, false) ∧
    fleeKidC.state ≠ KidState.wandering ∧
    (fleeKidC.applyMovement MathO.triv {} [redShelfC] 1).direction = 1 ∧
    (fleeKidC.applyMovement MathO.triv {} [redShelfC] 1).vx = -3/10 ∧
    ¬((fleeKidC.applyMovement MathO.triv {} [redShelfC] 1).direction =
        ({} : MoveDraws).unstuckR * MathO.triv.pi * 2 ∧
      (fleeKidC.applyMovement MathO.triv {} [redShelfC] 1).vx =
        MathO.triv.cos (({} : MoveDraws).unstuckR * MathO.triv.pi * 2) *
          fleeKidC.speed * (1/2)) := by
  have hboth : fleeKidC.scanShelves (fleeKidC.x + fleeKidC.vx * 1)
      (fleeKidC.y + fleeKidC.vy * 1) [redShelfC] (true, true) = (false, false) := by
    norm_num [Kid.scanShelves, Kid.checkCollision, fleeKidC, redShelfC, Kid.init]
  have h := (claim_C9 MathO.triv {} [redShelfC] fleeKidC 1 hboth).2 (by decide)
  have hdir : (fleeKidC.applyMovement MathO.triv {} [redShelfC] 1).direction = 1 := by
    rw [h.2.2]
    rfl
  have hvx : (fleeKidC.applyMovement MathO.triv {} [redShelfC] 1).vx = -3/10 := by
    rw [h.1]
    norm_num [fleeKidC]
  refine ⟨hboth, by decide, hdir, hvx, ?_⟩
  rintro ⟨hd, -⟩
  rw [hdir] at hd
  norm_num [MathO.triv] at hd

/-- A wandering kid standing inside a shelf with a small velocity. -/
def stuckKidC : Kid := { Kid.init 2 0 0 1 1 with vx := 1, vy := 1 }

/-- Witness for C9 at the wandering fixture (fresh heading, half speed). -/
theorem claim_C9_witness :
    (stuckKidC.applyMovement MathO.triv {} [redShelfC] 1).direction =
      ({} : MoveDraws).unstuckR * MathO.triv.pi * 2 ∧
    (stuckKidC.applyMovement MathO.triv {} [redShelfC] 1).vx =
      MathO.triv.cos (({} : MoveDraws).unstuckR * MathO.triv.pi * 2) *
        stuckKidC.speed * (1/2) := by
  have hboth : stuckKidC.scanShelves (stuckKidC.x + stuckKidC.vx * 1)
      (stuckKidC.y + stuckKidC.vy * 1) [redShelfC] (true, true) = (false, false) := by
    norm_num [Kid.scanShelves, Kid.checkCollision, stuckKidC, redShelfC, Kid.init]
  have h := (claim_C9 MathO.triv {} [redShelfC] stuckKidC 1 hboth).1 rfl
  exact ⟨h.1, h.2.1⟩

/-! ## Snatching leaves the repelled counter alone (claim C10) -/

/-- How one snatch pass may change a kid: the one-shot laugh flag is
untouched, and the state is either unchanged or set (by direct
assignment, with no cue) to Fleeing. -/
def snatchRel (k k' : Kid) : Prop :=
  k'.hasPlayedLaughSound = k.hasPlayedLaughSound ∧
  (k'.state = k.state ∨ k'.state = KidState.fleeing)

theorem PlayingState.snatchLoop_effects (o : MathO) (cx cy rad : ℚ)
    (kids : List Kid) :
    ∀ (p : Player) (gd : GameData) (sig : ℕ),
      (PlayingState.snatchLoop o cx cy rad kids p gd sig).2.2.1.kidsRepelled =
        gd.kidsRepelled ∧
      List.Forall₂ snatchRel kids
        (PlayingState.snatchLoop o cx cy rad kids p gd sig).1 := by
  induction kids with
  | nil => intro p gd sig; exact ⟨rfl, List.Forall₂.nil⟩
  | cons kid rest ih =>
      intro p gd sig
      unfold PlayingState.snatchLoop
      cases hc : kid.carriedVolumeBlock with
      | none =>
          simp only []
          exact ⟨(ih p gd sig).1,
            List.Forall₂.cons ⟨rfl, Or.inl rfl⟩ (ih p gd sig).2⟩
      | some volumeBlock =>
          simp only []
          by_cases hd : o.sqrt ((kid.getCenterX - cx) ^ 2 +
              (kid.getCenterY - cy) ^ 2) ≤ rad
          · rw [if_pos hd]
            by_cases hp : (p.pickupVolumeBlock volumeBlock).1 = true
            · rw [if_pos hp]
              constructor
              · show (PlayingState.snatchLoop o cx cy rad rest _ _ _).2.2.1.kidsRepelled
                  = gd.kidsRepelled
                rw [(ih _ _ _).1]
                exact (PlayingState.awardXP_preserves 7
                  (some (p.pickupVolumeBlock volumeBlock).2) _ _).2.2.1
              · exact List.Forall₂.cons ⟨rfl, Or.inr rfl⟩ (ih _ _ _).2
            · rw [if_neg hp]
              exact ⟨(ih _ _ _).1,
                List.Forall₂.cons ⟨rfl, Or.inl rfl⟩ (ih _ _ _).2⟩
          · rw [if_neg hd]
            exact ⟨(ih _ _ _).1,
              List.Forall₂.cons ⟨rfl, Or.inl rfl⟩ (ih _ _ _).2⟩

/-- C10: a snatch resolution never touches the global repelled counter
and never touches any kid's one-shot alert flag (no cue); each kid's
state is either unchanged or set to Fleeing by the direct assignment,
and no kid is added or removed. -/
theorem claim_C10 (o : MathO) (w : World) :
    (PlayingState.checkVolumeBlockSnatching o w).gameData.kidsRepelled =
      w.gameData.kidsRepelled ∧
    List.Forall₂ snatchRel w.kids
      (PlayingState.checkVolumeBlockSnatching o w).kids ∧
    (PlayingState.checkVolumeBlockSnatching o w).kids.length = w.kids.length := by
  have hrefl : List.Forall₂ snatchRel w.kids w.kids :=
    List.forall₂_same.mpr fun x _ => ⟨rfl, Or.inl rfl⟩
  unfold PlayingState.checkVolumeBlockSnatching
  cases hpl : w.player with
  | none => exact ⟨rfl, hrefl, rfl⟩
  | some p0 =>
      simp only []
      by_cases hfull : p0.carriedVolumeBlocks.length ≥ p0.stats.carrySlots
      · rw [if_pos hfull]
        exact ⟨rfl, hrefl, rfl⟩
      · rw [if_neg hfull]
        have h := PlayingState.snatchLoop_effects o p0.getCenterX p0.getCenterY
          p0.repelRadius w.kids p0 w.gameData w.upgradeSignals
        exact ⟨h.1, h.2, (List.Forall₂.length_eq h.2).symm⟩

/-! ## The snatch atomicity slip (claim C4) -/

/-- A block held by kid `i`. -/
def carriedBlockC (i : ℕ) : Block :=
  { redBlockC with isHeld := true, holder := some (.kid i) }

/-- Kid `i` carrying its block, with a running drop timer. -/
def snKid (i : ℕ) : Kid :=
  { Kid.init i 0 0 1 0 with
    carriedVolumeBlock := some (carriedBlockC i), dropVolumeBlockTimer := 2 }

/-- The player of the atomicity fixture: exactly one carry slot, empty
hands. -/
def snPlayerC : Player :=
  { playerC with stats := { playerC.stats with carrySlots := 1 } }

/-- The atomicity fixture: two carrying kids in snatch range of a
one-slot player. -/
def snWorldC : World :=
  { player := some snPlayerC, kids := [snKid 0, snKid 1],
    volumeBlocks := [carriedBlockC 0, carriedBlockC 1], shelves := [],
    gameData := GameData.init, upgradeSignals := 0 }

/-- The player after the first successful snatch: the single slot
filled. -/
def snPlayer1C : Player :=
  { snPlayerC with carriedVolumeBlocks := [carriedBlockC 0] }

theorem snPlayerC_pickup0 :
    snPlayerC.pickupVolumeBlock (carriedBlockC 0) = (true, snPlayer1C) := by
  unfold Player.pickupVolumeBlock
  rw [if_pos (by norm_num [snPlayerC, playerC])]
  rfl

theorem snPlayer1C_pickup1 :
    snPlayer1C.pickupVolumeBlock (carriedBlockC 1) = (false, snPlayer1C) := by
  unfold Player.pickupVolumeBlock
  rw [if_neg (by norm_num [snPlayer1C, snPlayerC, playerC])]

theorem snPlayer1C_award (gdx : GameData) (sigx : ℕ) :
    (PlayingState.awardXPTo 7 snPlayer1C gdx sigx).1 = snPlayer1C := by
  unfold PlayingState.awardXPTo PlayingState.awardXP
  simp only []
  split_ifs <;>
    simp [snPlayer1C, snPlayerC, playerC]

theorem snatch_fixture_loop :
    (PlayingState.snatchLoop oZero snPlayerC.getCenterX snPlayerC.getCenterY
      snPlayerC.repelRadius [snKid 0, snKid 1] snPlayerC GameData.init 0).1 =
      [{ snKid 0 with
           carriedVolumeBlock := none, dropVolumeBlockTimer := 0,
           state := .fleeing },
       { snKid 1 with
           carriedVolumeBlock := none, dropVolumeBlockTimer := 0 }] ∧
    (PlayingState.snatchLoop oZero snPlayerC.getCenterX snPlayerC.getCenterY
      snPlayerC.repelRadius [snKid 0, snKid 1] snPlayerC GameData.init 0).2.1 =
      snPlayer1C := by
  have hdist : ∀ q : ℚ, oZero.sqrt q ≤ snPlayerC.repelRadius := by
    intro q
    norm_num [oZero, MathO.triv, snPlayerC, playerC]
  unfold PlayingState.snatchLoop
  simp only [show (snKid 0).carriedVolumeBlock = some (carriedBlockC 0) from rfl]
  rw [if_pos (hdist _), snPlayerC_pickup0]
  simp only [show ((true, snPlayer1C) : Bool × Player).1 = true from rfl, if_true]
  unfold PlayingState.snatchLoop
  simp only [show (snKid 1).carriedVolumeBlock = some (carriedBlockC 1) from rfl]
  rw [snPlayer1C_award]
  rw [if_pos (hdist _), snPlayer1C_pickup1]
  simp only [show ((false, snPlayer1C) : Bool × Player).1 = true ↔ False from
    by simp, if_false]
  unfold PlayingState.snatchLoop
  exact ⟨rfl, rfl⟩

/-- C4 at its failing input: the first snatch fills the player's single
slot; processing the second kid, the source clears the kid's carried
reference and drop timer *before* the capacity check, whose failure then
leaves the world changed but the block still marked Held with holder =
kid 1 — an outcome that is neither a completed transfer nor an unchanged
world, contradicting the claimed all-or-nothing resolution. -/
theorem claim_C4_bug :
    ((PlayingState.checkVolumeBlockSnatching oZero snWorldC).kids.getD 1
      (snKid 1)).carriedVolumeBlock = none ∧
    ((PlayingState.checkVolumeBlockSnatching oZero snWorldC).kids.getD 1
      (snKid 1)).state = KidState.wandering ∧
    ((PlayingState.checkVolumeBlockSnatching oZero snWorldC).kids.getD 1
      (snKid 1)).dropVolumeBlockTimer = 0 ∧
    (snKid 1).dropVolumeBlockTimer = 2 ∧
    (PlayingState.checkVolumeBlockSnatching oZero snWorldC).volumeBlocks.getD 1
      redBlockC = carriedBlockC 1 ∧
    (carriedBlockC 1).isHeld = true ∧
    (carriedBlockC 1).holder = some (Holder.kid 1) ∧
    (PlayingState.checkVolumeBlockSnatching oZero snWorldC).player.map
      Player.carriedVolumeBlocks = some [carriedBlockC 0] := by
  have hw : PlayingState.checkVolumeBlockSnatching oZero snWorldC =
      { snWorldC with
        kids := (PlayingState.snatchLoop oZero snPlayerC.getCenterX
          snPlayerC.getCenterY snPlayerC.repelRadius [snKid 0, snKid 1]
          snPlayerC GameData.init 0).1,
        player := some (PlayingState.snatchLoop oZero snPlayerC.getCenterX
          snPlayerC.getCenterY snPlayerC.repelRadius [snKid 0, snKid 1]
          snPlayerC GameData.init 0).2.1,
        gameData := (PlayingState.snatchLoop oZero snPlayerC.getCenterX
          snPlayerC.getCenterY snPlayerC.repelRadius [snKid 0, snKid 1]
          snPlayerC GameData.init 0).2.2.1,
        upgradeSignals := (PlayingState.snatchLoop oZero snPlayerC.getCenterX
          snPlayerC.getCenterY snPlayerC.repelRadius [snKid 0, snKid 1]
          snPlayerC GameData.init 0).2.2.2 } := by
    unfold PlayingState.checkVolumeBlockSnatching
    simp only [snWorldC]
    rw [if_neg (by norm_num [snPlayerC, playerC])]
  rw [hw, snatch_fixture_loop.1, snatch_fixture_loop.2]
  exact ⟨rfl, rfl, rfl, rfl, rfl, rfl, rfl, rfl⟩

/-! ## The chaos range invariant over a tick (claim C7) -/

/-- A flat chaos reward floored at zero keeps chaos within `[0, M]`. -/
theorem chaos_reward_bounds (c M r : ℚ) (h0 : 0 ≤ c) (hM : c ≤ M)
    (hr : 0 ≤ r) : 0 ≤ max 0 (c - r) ∧ max 0 (c - r) ≤ M :=
  ⟨le_max_left _ _, max_le (le_trans h0 hM) (by linarith)⟩

theorem PlayingState.updateChaos_bounds (blocks : List Block)
    (pl : Option Player) (gd : GameData) (dt : ℚ) (hM : 0 ≤ gd.maxChaos) :
    0 ≤ (PlayingState.updateChaos blocks pl gd dt).chaosLevel ∧
    (PlayingState.updateChaos blocks pl gd dt).chaosLevel ≤ gd.maxChaos ∧
    (PlayingState.updateChaos blocks pl gd dt).maxChaos = gd.maxChaos := by
  unfold PlayingState.updateChaos
  dsimp only
  split_ifs <;>
    exact ⟨le_max_left _ _, max_le hM (min_le_left _ _), rfl⟩

theorem PlayingState.pickupLoop_bounds (o : MathO) (radius cx cy : ℚ)
    (blocks : List Block) :
    ∀ (p : Player) (gd : GameData) (sig : ℕ),
      0 ≤ gd.chaosLevel → gd.chaosLevel ≤ gd.maxChaos →
      0 ≤ (PlayingState.pickupLoop o radius cx cy blocks p gd sig).2.2.1.chaosLevel ∧
      (PlayingState.pickupLoop o radius cx cy blocks p gd sig).2.2.1.chaosLevel ≤
        (PlayingState.pickupLoop o radius cx cy blocks p gd sig).2.2.1.maxChaos ∧
      (PlayingState.pickupLoop o radius cx cy blocks p gd sig).2.2.1.maxChaos =
        gd.maxChaos := by
  induction blocks with
  | nil => intro p gd sig h0 hM; exact ⟨h0, hM, rfl⟩
  | cons vb rest ih =>
      intro p gd sig h0 hM
      unfold PlayingState.pickupLoop
      by_cases hh : (vb.isHeld || vb.isShelved) = true
      · rw [if_pos hh]
        exact ih p gd sig h0 hM
      · rw [if_neg hh]
        by_cases hd : o.sqrt ((vb.getCenterX - cx) ^ 2 + (vb.getCenterY - cy) ^ 2)
            ≤ radius
        · rw [if_pos hd]
          by_cases hp : (p.pickupVolumeBlock vb).1 = true
          · rw [if_pos hp]
            have hb := chaos_reward_bounds gd.chaosLevel gd.maxChaos (1/2) h0 hM
              (by norm_num)
            exact ih _ _ _ hb.1 hb.2
          · rw [if_neg hp]
            exact ih (p.pickupVolumeBlock vb).2 gd sig h0 hM
        · rw [if_neg hd]
          exact ih p gd sig h0 hM

theorem PlayingState.snatchLoop_bounds (o : MathO) (cx cy rad : ℚ)
    (kids : List Kid) :
    ∀ (p : Player) (gd : GameData) (sig : ℕ),
      0 ≤ gd.chaosLevel → gd.chaosLevel ≤ gd.maxChaos →
      0 ≤ (PlayingState.snatchLoop o cx cy rad kids p gd sig).2.2.1.chaosLevel ∧
      (PlayingState.snatchLoop o cx cy rad kids p gd sig).2.2.1.chaosLevel ≤
        (PlayingState.snatchLoop o cx cy rad kids p gd sig).2.2.1.maxChaos ∧
      (PlayingState.snatchLoop o cx cy rad kids p gd sig).2.2.1.maxChaos =
        gd.maxChaos := by
  induction kids with
  | nil => intro p gd sig h0 hM; exact ⟨h0, hM, rfl⟩
  | cons kid rest ih =>
      intro p gd sig h0 hM
      unfold PlayingState.snatchLoop
      cases hc : kid.carriedVolumeBlock with
      | none =>
          simp only []
          exact ih p gd sig h0 hM
      | some volumeBlock =>
          simp only []
          by_cases hd : o.sqrt ((kid.getCenterX - cx) ^ 2 +
              (kid.getCenterY - cy) ^ 2) ≤ rad
          · rw [if_pos hd]
            by_cases hp : (p.pickupVolumeBlock volumeBlock).1 = true
            · rw [if_pos hp]
              have hb := chaos_reward_bounds gd.chaosLevel gd.maxChaos (3/4)
                h0 hM (by norm_num)
              exact ih _ _ _ hb.1 hb.2
            · rw [if_neg hp]
              exact ih (p.pickupVolumeBlock volumeBlock).2 gd sig h0 hM
          · rw [if_neg hd]
            exact ih p gd sig h0 hM

theorem PlayingState.shelvingLoop_bounds (returnDistance : ℚ)
    (shelves : List (ℕ × Shelf)) :
    ∀ (p : Player) (gd : GameData) (sig : ℕ),
      0 ≤ gd.chaosLevel → gd.chaosLevel ≤ gd.maxChaos →
      0 ≤ (PlayingState.shelvingLoop returnDistance shelves p gd sig).2.2.1.chaosLevel ∧
      (PlayingState.shelvingLoop returnDistance shelves p gd sig).2.2.1.chaosLevel ≤
        (PlayingState.shelvingLoop returnDistance shelves p gd sig).2.2.1.maxChaos ∧
      (PlayingState.shelvingLoop returnDistance shelves p gd sig).2.2.1.maxChaos =
        gd.maxChaos := by
  induction shelves with
  | nil => intro p gd sig h0 hM; exact ⟨h0, hM, rfl⟩
  | cons pr rest ih =>
      obtain ⟨idx, shelf⟩ := pr
      intro p gd sig h0 hM
      unfold PlayingState.shelvingLoop
      by_cases hg : PlayingState.isPlayerNearShelf p shelf returnDistance = true ∧
          shelf.hasEmptySlots = true
      · rw [if_pos hg]
        generalize p.shelveVolumeBlock shelf.color = sv
        obtain ⟨ob, p1⟩ := sv
        cases ob with
        | none =>
            simp only []
            exact ih p1 gd sig h0 hM
        | some volumeBlock =>
            simp only []
            by_cases ha : (shelf.addVolumeBlock idx volumeBlock).1 = true
            · rw [if_pos ha]
              have hb := chaos_reward_bounds gd.chaosLevel gd.maxChaos 1
                h0 hM (by norm_num)
              exact ih _ _ _ hb.1 hb.2
            · rw [if_neg ha]
              exact ih p1 gd sig h0 hM
      · rw [if_neg hg]
        exact ih p gd sig h0 hM

theorem PlayingState.checkVolumeBlockPickup_bounds (o : MathO) (w : World)
    (h0 : 0 ≤ w.gameData.chaosLevel)
    (hM : w.gameData.chaosLevel ≤ w.gameData.maxChaos) :
    0 ≤ (PlayingState.checkVolumeBlockPickup o w).gameData.chaosLevel ∧
    (PlayingState.checkVolumeBlockPickup o w).gameData.chaosLevel ≤
      (PlayingState.checkVolumeBlockPickup o w).gameData.maxChaos ∧
    (PlayingState.checkVolumeBlockPickup o w).gameData.maxChaos =
      w.gameData.maxChaos := by
  unfold PlayingState.checkVolumeBlockPickup
  cases w.player with
  | none => exact ⟨h0, hM, rfl⟩
  | some p0 =>
      exact PlayingState.pickupLoop_bounds o (p0.stats.pickupRadius * 32)
        p0.getCenterX p0.getCenterY w.volumeBlocks p0 w.gameData
        w.upgradeSignals h0 hM

theorem PlayingState.checkVolumeBlockSnatching_bounds (o : MathO) (w : World)
    (h0 : 0 ≤ w.gameData.chaosLevel)
    (hM : w.gameData.chaosLevel ≤ w.gameData.maxChaos) :
    0 ≤ (PlayingState.checkVolumeBlockSnatching o w).gameData.chaosLevel ∧
    (PlayingState.checkVolumeBlockSnatching o w).gameData.chaosLevel ≤
      (PlayingState.checkVolumeBlockSnatching o w).gameData.maxChaos ∧
    (PlayingState.checkVolumeBlockSnatching o w).gameData.maxChaos =
      w.gameData.maxChaos := by
  unfold PlayingState.checkVolumeBlockSnatching
  cases w.player with
  | none => exact ⟨h0, hM, rfl⟩
  | some p0 =>
      simp only []
      by_cases hfull : p0.carriedVolumeBlocks.length ≥ p0.stats.carrySlots
      · rw [if_pos hfull]
        exact ⟨h0, hM, rfl⟩
      · rw [if_neg hfull]
        exact PlayingState.snatchLoop_bounds o p0.getCenterX p0.getCenterY
          p0.repelRadius w.kids p0 w.gameData w.upgradeSignals h0 hM

theorem PlayingState.checkVolumeBlockShelving_bounds (w : World)
    (h0 : 0 ≤ w.gameData.chaosLevel)
    (hM : w.gameData.chaosLevel ≤ w.gameData.maxChaos) :
    0 ≤ (PlayingState.checkVolumeBlockShelving w).gameData.chaosLevel ∧
    (PlayingState.checkVolumeBlockShelving w).gameData.chaosLevel ≤
      (PlayingState.checkVolumeBlockShelving w).gameData.maxChaos ∧
    (PlayingState.checkVolumeBlockShelving w).gameData.maxChaos =
      w.gameData.maxChaos := by
  unfold PlayingState.checkVolumeBlockShelving
  cases w.player with
  | none => exact ⟨h0, hM, rfl⟩
  | some p0 =>
      simp only []
      by_cases hempty : p0.carriedVolumeBlocks.length = 0
      · rw [if_pos hempty]
        exact ⟨h0, hM, rfl⟩
      · rw [if_neg hempty]
        exact PlayingState.shelvingLoop_bounds (p0.stats.returnRadius * 32)
          w.shelves.enum p0 w.gameData w.upgradeSignals h0 hM

/-- C7: after a complete orchestrator tick — the chaos-economy step
followed by the pickup, snatch and shelve interaction steps, each
applying its flat clamped chaos reward — the chaos level lies in
`[0, maxChaos]` (and `maxChaos` itself is untouched). -/
theorem claim_C7 (o : MathO) (w : World) (dt : ℚ)
    (hM : 0 ≤ w.gameData.maxChaos) :
    0 ≤ (PlayingState.updateCore o w dt).gameData.chaosLevel ∧
    (PlayingState.updateCore o w dt).gameData.chaosLevel ≤
      (PlayingState.updateCore o w dt).gameData.maxChaos ∧
    (PlayingState.updateCore o w dt).gameData.maxChaos =
      w.gameData.maxChaos := by
  have h1 := PlayingState.updateChaos_bounds w.volumeBlocks w.player
    w.gameData dt hM
  have h2 := PlayingState.checkVolumeBlockPickup_bounds o
    { w with gameData := (PlayingState.updateChaos w.volumeBlocks w.player
        w.gameData dt) } h1.1 (le_trans h1.2.1 (le_of_eq h1.2.2.symm))
  have h3 := PlayingState.checkVolumeBlockSnatching_bounds o
    (PlayingState.checkVolumeBlockPickup o
      { w with gameData := (PlayingState.updateChaos w.volumeBlocks w.player
          w.gameData dt) }) h2.1 h2.2.1
  have h4 := PlayingState.checkVolumeBlockShelving_bounds
    (PlayingState.checkVolumeBlockSnatching o
      (PlayingState.checkVolumeBlockPickup o
        { w with gameData := (PlayingState.updateChaos w.volumeBlocks w.player
            w.gameData dt) })) h3.1 h3.2.1
  refine ⟨h4.1, h4.2.1, ?_⟩
  rw [show (PlayingState.updateCore o w dt).gameData.maxChaos =
    (PlayingState.checkVolumeBlockShelving
      (PlayingState.checkVolumeBlockSnatching o
        (PlayingState.checkVolumeBlockPickup o
          { w with gameData := (PlayingState.updateChaos w.volumeBlocks w.player
              w.gameData dt) }))).gameData.maxChaos from rfl,
    h4.2.2, h3.2.2, h2.2.2]
  exact h1.2.2

/-- The empty world used by the C7 witness. -/
def emptyWorldC : World :=
  { player := none, kids := [], volumeBlocks := [], shelves := [],
    gameData := GameData.init }

/-- Witness for C7 at an empty world. -/
theorem claim_C7_witness :
    0 ≤ (PlayingState.updateCore MathO.triv emptyWorldC 1).gameData.chaosLevel ∧
    (PlayingState.updateCore MathO.triv emptyWorldC 1).gameData.chaosLevel ≤
      (PlayingState.updateCore MathO.triv emptyWorldC 1).gameData.maxChaos := by
  have h := claim_C7 MathO.triv emptyWorldC 1
    (by norm_num [emptyWorldC, GameData.init])
  exact ⟨h.1, h.2.1⟩

end Game
